import Mathlib

/-! # Hyperstream source: device session and packet dispatch

A shallow embedding of `src/hyperstream-source.cpp` (class `IOSCameraInput`).

The session object is a record; every call the session makes on a collaborator
(device handle, decoder, transport portal) is appended to an event log kept in
the record, so that "which calls happen, how many, and in which order" are
statements about a list.  Each call of `connectToDevice` also records an entry
marker in the same log, so that calls of that method can be counted.

`Portal.hpp`, the decoders and the OBS host are not part of the sources at
hand.  What the session reads from them is part of the state (`Portal`), and
what they do when called is a parameter (`Env`, and `Wire` for the memory
layout of outbound frames).  The decode pipeline, of which only the class
declaration in `src/FFMpegAudioDecoder.h` is at hand, is modelled from the
specification.
-/

namespace Hyperstream

/-- Modelled from the spec: `portal::Device`, declared in `Portal.hpp`, which is
not among the sources.  A device handle (`portal::Device::shared_ptr`, the
spec's DeviceHandle) as the session observes it: the identity of the shared
object, the result of `uuid()` and the result of `isConnected()`. -/
structure Device where
  handle : Nat
  uuid : String
  isConnected : Bool
deriving DecidableEq, Repr

/-- The map `std::map<int, portal::Device::shared_ptr>`, listed in key order. -/
abbrev DeviceMap := List (Int × Device)

/-- The two objects the member `VideoDecoder *videoDecoder` is ever pointed at. -/
inductive VideoDecoder where
  | ffmpegVideoDecoder
  | videoToolboxVideoDecoder
deriving DecidableEq, Repr

/-- The decoder members of the session: the video decoders and `audioDecoder`. -/
inductive Decoder where
  | video (v : VideoDecoder)
  | audioDecoder
deriving DecidableEq, Repr

/-- The bytes of a received packet (`std::vector<char>`). -/
abbrev Packet := List Int

/-- One entry of the session's event log. -/
inductive Event where
  /-- entry of `IOSCameraInput::connectToDevice(uuid, force)` -/
  | connectToDevice (uuid : String) (force : Bool)
  /-- `device->disconnect()` on a device handle -/
  | disconnect (d : Device)
  /-- `Flush()` on a decoder -/
  | flush (d : Decoder)
  /-- `portal.connectToDevice(device)`: a connect is initiated on the handle -/
  | portalConnect (d : Device)
  /-- `Init()` on a decoder -/
  | init (d : Decoder)
  /-- `Input(packet, type, tag)` on a decoder -/
  | input (d : Decoder) (packet : Packet) (type tag : Int)
  /-- the `catch (...)` block of `portalDeviceDidReceivePacket` ran -/
  | exceptionCaught
  /-- `device.send(packet)`: the bytes are handed to the device -/
  | send (d : Device) (packet : Packet)
deriving DecidableEq, Repr

/-- Modelled from the spec: `portal::Portal`, declared in `Portal.hpp`, which is
not among the sources.  What the session reads from it: the member `_device`
(the active device handle, optional) and the result of `getDevices()` (the
current snapshot of the device directory, the spec's `listDevices()`). -/
structure Portal where
  _device : Option Device
  devices : DeviceMap
deriving DecidableEq, Repr

/-- The fields of `IOSCameraInput` that the modelled methods read or write,
the value stored in the host settings under `SETTING_DEVICE_UUID`, and the event
log.  The member `float intensity` is kept as the bit pattern of the float. -/
structure IOSCameraInput where
  portal : Portal
  deviceUUID : String
  videoDecoder : VideoDecoder
  active : Bool
  settingDeviceUUID : String
  log : List Event
  intensity : Nat
deriving DecidableEq, Repr

/-- The collaborators whose code is not at hand, and the build platform.
* `apple`: whether `__APPLE__` is defined;
* `portalConnectToDevice`: what `portal.connectToDevice(device)` does to the portal;
* `inputThrows`: whether the `Input` call that was just logged (the last entry
  of the given log) raises an exception;
* `initFails`: whether `Init()` on a decoder fails to bring the decoder up;
  `Init()` returns `void`, so the session is not told;
* `indeterminateIntensity`: the value of the member `intensity`, which the
  constructor does not initialise;
* `initRaises`: whether `Init()` on a decoder raises an exception instead of
  returning. -/
structure Env where
  apple : Bool
  portalConnectToDevice : Portal → Device → Portal
  inputThrows : List Event → Bool
  initFails : Decoder → Bool
  indeterminateIntensity : Nat
  initRaises : Decoder → Bool

/-- Append one entry to the event log. -/
def emit (s : IOSCameraInput) (e : Event) : IOSCameraInput :=
  { s with log := s.log ++ [e] }

/-- The events logged between an earlier state and a later one. -/
def newEvents (before after : IOSCameraInput) : List Event :=
  after.log.drop before.log.length

/-- The test of `connectToDevice` (line 139) on the active handle `dev`:
`force == false && uuid().compare(uuid) == 0 && isConnected()`. -/
def alreadyConnected (dev : Device) (uuid : String) (force : Bool) : Bool :=
  force == false && dev.uuid == uuid && dev.isConnected

/-- Lines 144-145: disconnect the old device and clear `portal._device`. -/
def disconnectOld (dev : Device) (s : IOSCameraInput) : IOSCameraInput :=
  { emit s (Event.disconnect dev) with portal := { s.portal with _device := none } }

/-- Lines 151-155, "flush the decoders". -/
def flushDecoders (env : Env) (s : IOSCameraInput) : IOSCameraInput :=
  let s1 := emit s (Event.flush (Decoder.video VideoDecoder.ffmpegVideoDecoder))
  if env.apple then
    emit s1 (Event.flush (Decoder.video VideoDecoder.videoToolboxVideoDecoder))
  else s1

/-- The body of the lambda of lines 162-172, for one entry of the snapshot. -/
def connectIfMatches (env : Env) (uuid : String) (s : IOSCameraInput)
    (deviceMap : Int × Device) : IOSCameraInput :=
  if deviceMap.2.uuid == uuid then
    { emit s (Event.portalConnect deviceMap.2) with
      portal := env.portalConnectToDevice s.portal deviceMap.2 }
  else s

/-- Lines 157-172, "Find device": take the snapshot, record the requested UUID,
and walk the snapshot. -/
def findDevice (env : Env) (uuid : String) (s : IOSCameraInput) : IOSCameraInput :=
  let devices := s.portal.devices
  let s1 := { s with deviceUUID := uuid }
  devices.foldl (connectIfMatches env uuid) s1

/-- `IOSCameraInput::connectToDevice(uuid, force)` (lines 135-173). -/
def connectToDevice (env : Env) (uuid : String) (force : Bool)
    (s : IOSCameraInput) : IOSCameraInput :=
  let s0 := emit s (Event.connectToDevice uuid force)
  match s0.portal._device with
  | some dev =>
    if alreadyConnected dev uuid force then s0
    else findDevice env uuid (flushDecoders env (disconnectOld dev s0))
  | none => findDevice env uuid (flushDecoders env s0)

/-- `IOSCameraInput::loadSettings` (lines 119-124); `settings` is the string
that `obs_data_get_string` finds under `SETTING_DEVICE_UUID`. -/
def loadSettings (env : Env) (settings : String) (s : IOSCameraInput) : IOSCameraInput :=
  connectToDevice env settings false s

/-- `IOSCameraInput::reconnectToDevice` (lines 126-133). -/
def reconnectToDevice (env : Env) (s : IOSCameraInput) : IOSCameraInput :=
  if s.deviceUUID.length < 1 then s
  else connectToDevice env s.deviceUUID true s

/-- The call `decoder.Input(packet, type, tag)`: the call is logged; it either
returns (`Except.ok`) or raises (`Except.error`, carrying the state at the
moment of the throw). -/
def decoderInput (env : Env) (d : Decoder) (packet : Packet) (type tag : Int)
    (s : IOSCameraInput) : Except IOSCameraInput IOSCameraInput :=
  let s1 := emit s (Event.input d packet type tag)
  if env.inputThrows s1.log then Except.error s1 else Except.ok s1

/-- The `try` block of `portalDeviceDidReceivePacket` (lines 179-187).  Case
102 has no `break` and falls through to `default`, which only breaks. -/
def dispatchPacket (env : Env) (packet : Packet) (type tag : Int)
    (s : IOSCameraInput) : Except IOSCameraInput IOSCameraInput :=
  if type = 101 then
    decoderInput env (Decoder.video s.videoDecoder) packet type tag s
  else if type = 102 then
    decoderInput env Decoder.audioDecoder packet type tag s
  else Except.ok s

/-- `IOSCameraInput::portalDeviceDidReceivePacket` (lines 175-198): the `try`
block, and the `catch (...)` block when the `try` block raised. -/
def portalDeviceDidReceivePacket (env : Env) (packet : Packet) (type tag : Int)
    (s : IOSCameraInput) : IOSCameraInput :=
  match dispatchPacket env packet type tag s with
  | Except.ok s1 => s1
  | Except.error s1 => emit s1 Event.exceptionCaught

/-- A received packet with its type code and tag. -/
structure Inbound where
  packet : Packet
  type : Int
  tag : Int
deriving DecidableEq, Repr

/-- Deliver a sequence of packets, one `portalDeviceDidReceivePacket` call each. -/
def receiveAll (env : Env) (ps : List Inbound) (s : IOSCameraInput) : IOSCameraInput :=
  ps.foldl (fun st p => portalDeviceDidReceivePacket env p.packet p.type p.tag st) s

/-- Line 220: `deviceUUID.size() == 0`. -/
def isFirstTimeConnectingToDevice (s : IOSCameraInput) : Bool :=
  s.deviceUUID.length == 0

/-- Line 222: `deviceUUID.compare(uuid) == 0`. -/
def isThisDeviceTheSameAsThePreviouslyConnectedDevice (s : IOSCameraInput)
    (device : Device) : Bool :=
  s.deviceUUID == device.uuid

/-- The test of line 224. -/
def shouldAutoConnect (s : IOSCameraInput) (device : Device) : Bool :=
  isFirstTimeConnectingToDevice s ||
    (isThisDeviceTheSameAsThePreviouslyConnectedDevice s device && !device.isConnected)

/-- The body of the loop of lines 217-232, for one entry of the device list. -/
def autoConnectStep (env : Env) (s : IOSCameraInput) (entry : Int × Device) :
    IOSCameraInput :=
  let uuid := entry.2.uuid
  if shouldAutoConnect s entry.2 then
    connectToDevice env uuid false { s with settingDeviceUUID := uuid }
  else s

/-- `IOSCameraInput::portalDidUpdateDeviceList` (lines 200-238). -/
def portalDidUpdateDeviceList (env : Env) (deviceList : DeviceMap)
    (s : IOSCameraInput) : IOSCameraInput :=
  if deviceList.length == 1 then deviceList.foldl (autoConnectStep env) s
  else s

/-- The constructor of `IOSCameraInput` (lines 65-98), for the stored device
UUID `settings` and the directory snapshot `devices`; no device handle is
active in a portal that was just created. -/
def IOSCameraInput.construct (env : Env) (settings : String) (devices : DeviceMap) :
    IOSCameraInput :=
  let s0 : IOSCameraInput :=
    { portal := { _device := none, devices := devices }, deviceUUID := "",
      videoDecoder := VideoDecoder.ffmpegVideoDecoder, active := false,
      settingDeviceUUID := settings, log := [],
      intensity := env.indeterminateIntensity }
  let s1 := if env.apple then
      emit s0 (Event.init (Decoder.video VideoDecoder.videoToolboxVideoDecoder))
    else s0
  let s2 := emit s1 (Event.init (Decoder.video VideoDecoder.ffmpegVideoDecoder))
  let s3 := emit s2 (Event.init Decoder.audioDecoder)
  let s4 := { s3 with videoDecoder := VideoDecoder.ffmpegVideoDecoder }
  let s5 := loadSettings env settings s4
  { s5 with active := true }

/-! ### Reading the event log -/

/-- The `connectToDevice` calls of a log, in order. -/
def connectCalls (es : List Event) : List (String × Bool) :=
  es.filterMap fun e =>
    match e with
    | Event.connectToDevice uuid force => some (uuid, force)
    | _ => none

/-- The handles on which a connect was initiated, in order. -/
def connectsInitiated (es : List Event) : List Device :=
  es.filterMap fun e =>
    match e with
    | Event.portalConnect d => some d
    | _ => none

/-- The handles that were disconnected, in order. -/
def disconnects (es : List Event) : List Device :=
  es.filterMap fun e =>
    match e with
    | Event.disconnect d => some d
    | _ => none

/-- The decoders that were flushed, in order. -/
def flushes (es : List Event) : List Decoder :=
  es.filterMap fun e =>
    match e with
    | Event.flush d => some d
    | _ => none

/-- The `Input` calls of a log, in order. -/
def inputCalls (es : List Event) : List (Decoder × Packet × Int × Int) :=
  es.filterMap fun e =>
    match e with
    | Event.input d packet type tag => some (d, packet, type, tag)
    | _ => none

/-- The devices of a snapshot whose UUID is `uuid`, in snapshot order. -/
def matching (uuid : String) (devices : DeviceMap) : List Device :=
  (devices.map Prod.snd).filter fun d => d.uuid == uuid

/-- The flush events of one non-skipped `connectToDevice` call. -/
def flushEvents (env : Env) : List Event :=
  if env.apple then
    [Event.flush (Decoder.video VideoDecoder.ffmpegVideoDecoder),
     Event.flush (Decoder.video VideoDecoder.videoToolboxVideoDecoder)]
  else [Event.flush (Decoder.video VideoDecoder.ffmpegVideoDecoder)]

/-- Whether an event names a device UUID. -/
def Event.mentions (u : String) : Event → Bool
  | Event.connectToDevice uuid _ => uuid == u
  | Event.disconnect d => d.uuid == u
  | Event.portalConnect d => d.uuid == u
  | _ => false

/-- Whether a UUID occurs anywhere in the session: as the requested UUID, in
the stored setting, on the active handle, in the directory snapshot, or in any
logged event. -/
def uuidSeen (s : IOSCameraInput) (u : String) : Bool :=
  s.deviceUUID == u || s.settingDeviceUUID == u ||
    s.portal._device.any (fun d => d.uuid == u) ||
    s.portal.devices.any (fun e => e.2.uuid == u) ||
    s.log.any (Event.mentions u)

/-- A sample environment: an Apple build, a transport that makes the device it
is asked to connect the active handle, and decoders that raise on packets whose
tag is negative. -/
def sampleEnv : Env where
  apple := true
  portalConnectToDevice := fun p d => { p with _device := some d }
  inputThrows := fun es =>
    match es.getLast? with
    | some (Event.input _ _ _ tag) => decide (tag < 0)
    | _ => false
  initFails := fun _ => false
  indeterminateIntensity := 0
  initRaises := fun _ => false

/-- Sample device handles. -/
def phoneA : Device := { handle := 1, uuid := "A", isConnected := true }

/-- A second sample device, not connected. -/
def phoneB : Device := { handle := 2, uuid := "B", isConnected := false }

/-- A sample session connected to `phoneA`, with both phones in the directory. -/
def sessionOnA : IOSCameraInput :=
  { portal := { _device := some phoneA, devices := [(0, phoneA), (1, phoneB)] },
    deviceUUID := "A", videoDecoder := VideoDecoder.ffmpegVideoDecoder,
    active := true, settingDeviceUUID := "A", log := [], intensity := 0 }

/-- Whether a `connectToDevice(uuid, force)` call in state `s` is the skipped
one: an active handle exists and passes the test of line 139. -/
def guardApplies (s : IOSCameraInput) (uuid : String) (force : Bool) : Bool :=
  match s.portal._device with
  | some dev => alreadyConnected dev uuid force
  | none => false

/-- The `Input` calls the type codes prescribe for one packet when `v` is the
selected video decoder: video (101) to `v`, audio (102) to the audio decoder,
none for any other code. -/
def routedInputs (v : VideoDecoder) (p : Inbound) : List (Decoder × Packet × Int × Int) :=
  if p.type = 101 then [(Decoder.video v, p.packet, 101, p.tag)]
  else if p.type = 102 then [(Decoder.audioDecoder, p.packet, 102, p.tag)]
  else []

/-- The `Input` calls the type codes prescribe for a sequence of packets. -/
def routedInputsAll (v : VideoDecoder) : List Inbound → List (Decoder × Packet × Int × Int)
  | [] => []
  | p :: ps => routedInputs v p ++ routedInputsAll v ps

/-- The session right after its construction on an Apple build with the stored
device UUID `A` and an empty device directory. -/
def sessionAwaitingA : IOSCameraInput :=
  IOSCameraInput.construct sampleEnv "A" []

/-! ### Outbound frames, teardown and decoder selection -/

/-- Modelled from the spec: `portal::PortalFrame`, declared in `Portal.hpp`,
which is not among the sources; the header fields `sendData` assigns. -/
structure PortalFrame where
  version : Int
  type : Int
  tag : Int
deriving DecidableEq, Repr

/-- The value of `sizeof(float)` on the platforms the plugin is built for. -/
def sizeofFloat : Nat := 4

/-- The memory layout that the sources at hand do not fix: `sizeof(PortalFrame)`,
the bytes of a `PortalFrame` object (every frame has that many), the bytes of a
`float` (`sizeof(float)` many), and the `!=` of `float`, on bit patterns. -/
structure Wire where
  sizeofPortalFrame : Nat
  frameBytes : PortalFrame → Packet
  frameBytes_length : ∀ f, (frameBytes f).length = sizeofPortalFrame
  floatBytes : Nat → Packet
  floatBytes_length : ∀ x, (floatBytes x).length = sizeofFloat
  floatNe : Nat → Nat → Bool

/-- The call `memcpy(dst + offset, src, n)` on byte lists. -/
def memcpy (dst : Packet) (offset : Nat) (src : Packet) (n : Nat) : Packet :=
  dst.take offset ++ src.take n ++ dst.drop (offset + n)

/-- `sendData(type, payload, payloadSize, device)` (lines 280-294).  A null
`payload` is `none`; `payloadSize` is an `int` that every caller passes as `0`
or `sizeof(float)`, kept here as a natural number.  The vector is created
zero-filled, the header is copied to its start and the payload behind it. -/
def sendData (w : Wire) (type : Int) (payload : Option Packet) (payloadSize : Nat)
    (device : Device) (s : IOSCameraInput) : IOSCameraInput :=
  let frame : PortalFrame := { version := 0, type := type, tag := 0 }
  if !device.isConnected then s
  else
    let packet0 : Packet := List.replicate (w.sizeofPortalFrame + payloadSize) 0
    let packet1 := memcpy packet0 0 (w.frameBytes frame) w.sizeofPortalFrame
    let packet2 :=
      match payload with
      | some bytes =>
        if payloadSize > 0 then memcpy packet1 w.sizeofPortalFrame bytes payloadSize
        else packet1
      | none => packet1
    emit s (Event.send device packet2)

/-- `PREV_FILTER_PACKET_TYPE` (line 297). -/
def PREV_FILTER_PACKET_TYPE : Int := 104

/-- `NEXT_FILTER_PACKET_TYPE` (line 307). -/
def NEXT_FILTER_PACKET_TYPE : Int := 105

/-- `WILDCARD_PACKET_TYPE` (line 317). -/
def WILDCARD_PACKET_TYPE : Int := 107

/-- `prev_filter` (lines 298-305), on the session `AppContext` points to. -/
def prev_filter (w : Wire) (s : IOSCameraInput) : IOSCameraInput :=
  match s.portal._device with
  | some device => sendData w PREV_FILTER_PACKET_TYPE none 0 device s
  | none => s

/-- `next_filter` (lines 308-315), on the session `AppContext` points to. -/
def next_filter (w : Wire) (s : IOSCameraInput) : IOSCameraInput :=
  match s.portal._device with
  | some device => sendData w NEXT_FILTER_PACKET_TYPE none 0 device s
  | none => s

/-- `wildcard` (lines 318-325), on the session passed as `data`. -/
def wildcard (w : Wire) (s : IOSCameraInput) : IOSCameraInput :=
  match s.portal._device with
  | none => s
  | some device => sendData w WILDCARD_PACKET_TYPE none 0 device s

/-- `UpdateIOSCameraInput` (lines 469-481): `AppContext` is the global session
pointer (`none` when null), `intensity` the setting after the cast to `float`. -/
def UpdateIOSCameraInput (w : Wire) (intensity : Nat)
    (AppContext : Option IOSCameraInput) : Option IOSCameraInput :=
  match AppContext with
  | none => none
  | some s =>
    if w.floatNe s.intensity intensity then
      let s1 := { s with intensity := intensity }
      match s1.portal._device with
      | some device => some (sendData w 106 (some (w.floatBytes intensity)) sizeofFloat device s1)
      | none => some s1
    else some s

/-- The destructor `~IOSCameraInput` (lines 100-107), which is all that
`DestroyIOSCameraInput` (lines 386-389) runs. -/
def IOSCameraInput.destruct (s : IOSCameraInput) : IOSCameraInput :=
  match s.portal._device with
  | some device => emit s (Event.disconnect device)
  | none => s

/-- `update_hardware_decoding` (lines 345-354), compiled on Apple builds only,
on the session `AppContext` points to. -/
def update_hardware_decoding (useHardwareDecoder : Bool) (s : IOSCameraInput) :
    IOSCameraInput :=
  if useHardwareDecoder then
    { s with videoDecoder := VideoDecoder.videoToolboxVideoDecoder }
  else { s with videoDecoder := VideoDecoder.ffmpegVideoDecoder }

/-- The frames handed to a device, in order. -/
def sends (es : List Event) : List (Device × Packet) :=
  es.filterMap fun e =>
    match e with
    | Event.send d packet => some (d, packet)
    | _ => none

/-- A sample layout: a 12-byte header of three 4-byte fields (low byte of each
field first, the other bytes zero), floats as four bytes, `!=` as inequality
of bit patterns. -/
def sampleWire : Wire where
  sizeofPortalFrame := 12
  frameBytes := fun f => [f.version, 0, 0, 0, f.type, 0, 0, 0, f.tag, 0, 0, 0]
  frameBytes_length := fun _ => rfl
  floatBytes := fun x => [x % 256, x / 256 % 256, x / 65536 % 256, x / 16777216 % 256]
  floatBytes_length := fun _ => rfl
  floatNe := fun a b => a != b

/-- Whether a log shows a video packet passed to `Input` with no `Flush()` of a
video decoder after it. -/
def pendingVideoInput (es : List Event) : Bool :=
  es.foldl (fun pending e =>
    match e with
    | Event.input (Decoder.video _) _ _ _ => true
    | Event.flush (Decoder.video _) => false
    | _ => pending) false

/-- The sample environment, but with a hardware video decoder whose `Init()`
fails. -/
def failedHardwareEnv : Env :=
  { sampleEnv with
    initFails := fun d => d == Decoder.video VideoDecoder.videoToolboxVideoDecoder }

/-- The session constructed on the sample environment (empty stored UUID, empty
directory) after it received one video packet. -/
def sessionAfterVideoPacket : IOSCameraInput :=
  portalDeviceDidReceivePacket sampleEnv [1] 101 1 (IOSCameraInput.construct sampleEnv "" [])

/-- The session constructed where the hardware decoder failed to initialise,
after the hardware-decoding setting was switched on. -/
def sessionHardwareSelected : IOSCameraInput :=
  update_hardware_decoding true (IOSCameraInput.construct failedHardwareEnv "" [])

/-! ### The decode pipeline

`FFMpegAudioDecoder.h` declares `Input`, `Flush`, `Drain`, `Shutdown`, `run`,
`processPacketItem` and the queue `mQueue`; their bodies, `Queue.hpp` and
`Thread.hpp` are not among the sources.  The pipeline below follows sections
4.3 and 4.4 of the specification.  The worker thread is a step function that a
schedule may run at any point between the calls of the producer. -/

/-- Modelled from the spec: the decode job `PacketItem` (`VideoDecoder.h` is not
among the sources): type, tag and payload bytes; the enqueue order is the
position in the queue. -/
structure PacketItem where
  type : Int
  tag : Int
  payload : Packet
deriving DecidableEq, Repr

/-- Modelled from the spec: the states of a DecodePipeline (section 4.4); the
pipeline classes' bodies are not among the sources. -/
inductive PipelineState where
  | Idle
  | Running
  | Flushing
  | Draining
  | ShuttingDown
  | Stopped
deriving DecidableEq, Repr

/-- Modelled from the spec: what a pipeline does that can be observed, in place
of the missing bodies of `run` and `processPacketItem`: the worker was started,
an item was delivered to decode, the worker exited, and the calls on the
DecoderStrategy. -/
inductive PipelineEvent where
  | workerStarted
  | decode (item : PacketItem)
  | workerExited
  | strategyFlush
  | strategyDrain
  | strategyShutdown
deriving DecidableEq, Repr

/-- Modelled from the spec: the WorkQueue of section 4.3 (`Queue.hpp` is not
among the sources): the queued items, oldest first, and whether it was closed. -/
structure WorkQueue where
  items : List PacketItem
  closed : Bool
deriving DecidableEq, Repr

/-- Modelled from the spec: the results of `dequeue()` of the missing
`Queue.hpp`: an item and the rest of the queue, the sentinel "closed", or the
consumer stays blocked. -/
inductive Dequeued where
  | item (i : PacketItem) (rest : WorkQueue)
  | closed
  | blocked
deriving DecidableEq, Repr

/-- Modelled from the spec: `enqueue(item)` of the missing `Queue.hpp`; the
queue is unbounded and the item goes to the back. -/
def WorkQueue.enqueue (q : WorkQueue) (i : PacketItem) : WorkQueue :=
  { q with items := q.items ++ [i] }

/-- Modelled from the spec: `dequeue()` of the missing `Queue.hpp`: the oldest
item when there is one; on an empty queue the sentinel once the queue is
closed, and otherwise the consumer blocks. -/
def WorkQueue.dequeue (q : WorkQueue) : Dequeued :=
  match q.items with
  | i :: rest => Dequeued.item i { q with items := rest }
  | [] => if q.closed then Dequeued.closed else Dequeued.blocked

/-- Modelled from the spec: `close()` of the missing `Queue.hpp`; items already
enqueued stay in the queue. -/
def WorkQueue.close (q : WorkQueue) : WorkQueue :=
  { q with closed := true }

/-- Modelled from the spec: a DecodePipeline (section 4.4), in place of the
missing bodies of the decoder classes: its state, its WorkQueue `mQueue`,
whether its worker is running, and what it did so far. -/
structure DecodePipeline where
  state : PipelineState
  mQueue : WorkQueue
  workerRunning : Bool
  trace : List PipelineEvent
deriving DecidableEq, Repr

/-- Modelled from the spec: a pipeline before `Init()`; stands for the missing
constructor of the decoder classes. -/
def DecodePipeline.idle : DecodePipeline :=
  { state := PipelineState.Idle, mQueue := { items := [], closed := false },
    workerRunning := false, trace := [] }

/-- Modelled from the spec: `Init()` (body not among the sources), Idle to
Running: the single consumer worker is started. -/
def DecodePipeline.Init (p : DecodePipeline) : DecodePipeline :=
  match p.state with
  | PipelineState.Idle =>
    { p with state := PipelineState.Running, workerRunning := true,
             trace := p.trace ++ [PipelineEvent.workerStarted] }
  | _ => p

/-- Modelled from the spec: `Input(packet, type, tag)` (body not among the
sources): in Running or Draining it makes a PacketItem and enqueues it; in any
other state it does nothing. -/
def DecodePipeline.Input (p : DecodePipeline) (packet : Packet) (type tag : Int) :
    DecodePipeline :=
  match p.state with
  | PipelineState.Running | PipelineState.Draining =>
    { p with mQueue := p.mQueue.enqueue { type := type, tag := tag, payload := packet } }
  | _ => p

/-- Modelled from the spec: one turn of the worker loop `run` (body not among
the sources): dequeue, then hand the item to decode (the loop goes on whether
decode succeeds or fails); exit on the sentinel; stay blocked on an empty open
queue. -/
def DecodePipeline.workerStep (p : DecodePipeline) : DecodePipeline :=
  if p.workerRunning then
    match p.mQueue.dequeue with
    | Dequeued.item i rest =>
      { p with mQueue := rest, trace := p.trace ++ [PipelineEvent.decode i] }
    | Dequeued.closed =>
      { p with workerRunning := false, trace := p.trace ++ [PipelineEvent.workerExited] }
    | Dequeued.blocked => p
  else p

/-- Modelled from the spec: joining the worker (`Thread.hpp` is not among the
sources): the caller waits while the worker takes its turns; `fuel` bounds the
number of turns. -/
def DecodePipeline.joinWorker : Nat → DecodePipeline → DecodePipeline
  | 0, p => p
  | fuel + 1, p => DecodePipeline.joinWorker fuel p.workerStep

/-- Modelled from the spec: `Flush()` (body not among the sources): drop the
queued items without decoding them, flush the strategy, back to Running. -/
def DecodePipeline.Flush (p : DecodePipeline) : DecodePipeline :=
  match p.state with
  | PipelineState.Running =>
    { p with mQueue := { p.mQueue with items := [] },
             trace := p.trace ++ [PipelineEvent.strategyFlush] }
  | _ => p

/-- Modelled from the spec: `Drain()` (body not among the sources): drain the
strategy, back to Running. -/
def DecodePipeline.Drain (p : DecodePipeline) : DecodePipeline :=
  match p.state with
  | PipelineState.Running =>
    { p with trace := p.trace ++ [PipelineEvent.strategyDrain] }
  | _ => p

/-- Modelled from the spec: `Shutdown()` (body not among the sources): nothing
when already Stopped; otherwise close the queue, let the worker finish the
items already enqueued and join it (one turn per queued item and one for the
sentinel), shut the strategy down, and stop. -/
def DecodePipeline.Shutdown (p : DecodePipeline) : DecodePipeline :=
  match p.state with
  | PipelineState.Stopped => p
  | _ =>
    let p1 := { p with state := PipelineState.ShuttingDown, mQueue := p.mQueue.close }
    let p2 := DecodePipeline.joinWorker (p1.mQueue.items.length + 1) p1
    { p2 with state := PipelineState.Stopped,
              trace := p2.trace ++ [PipelineEvent.strategyShutdown] }

/-- Modelled from the spec: what can happen on a running pipeline before
`Shutdown()`, since the threads of the missing `Thread.hpp` run side by side:
the producer calls `Input`, or the worker takes a turn. -/
inductive PipelineOp where
  | input (packet : Packet) (type tag : Int)
  | work
deriving DecidableEq, Repr

/-- Modelled from the spec: run one interleaving of producer calls and worker
turns on a pipeline. -/
def DecodePipeline.run (ops : List PipelineOp) (p : DecodePipeline) : DecodePipeline :=
  ops.foldl (fun st op =>
    match op with
    | PipelineOp.input packet type tag => st.Input packet type tag
    | PipelineOp.work => st.workerStep) p

/-- The items an interleaving passes to `Input`, in call order. -/
def inputsOf (ops : List PipelineOp) : List PacketItem :=
  ops.filterMap fun op =>
    match op with
    | PipelineOp.input packet type tag => some { type := type, tag := tag, payload := packet }
    | PipelineOp.work => none

/-- The items a trace shows as delivered to decode, in order. -/
def decodedItems (es : List PipelineEvent) : List PacketItem :=
  es.filterMap fun e =>
    match e with
    | PipelineEvent.decode i => some i
    | _ => none

/-! ### Directory refresh and reachable sessions -/

/-- Modelled from the spec: the device directory of the missing `Portal.hpp`
changes (devices are plugged in or out, `reloadDeviceList()`): the snapshot
that `getDevices()` returns is replaced; the session's own fields stay. -/
def refreshDirectory (snapshot : DeviceMap) (s : IOSCameraInput) : IOSCameraInput :=
  { s with portal := { s.portal with devices := snapshot } }

/-- Modelled from the spec: the connection status of the active handle (held by
the missing `Portal.hpp`) changes, as `isConnected()` then reports. -/
def observeConnection (connected : Bool) (s : IOSCameraInput) : IOSCameraInput :=
  { s with portal :=
      { s.portal with
        _device := s.portal._device.map fun d => { d with isConnected := connected } } }

/-- The transport sets the active handle only to the device it was asked to
connect: after `portal.connectToDevice(d)` the member `_device` is `d`, or what
it was, or empty. -/
def TransportSetsRequested (env : Env) : Prop :=
  ∀ p d, (env.portalConnectToDevice p d)._device = some d ∨
    (env.portalConnectToDevice p d)._device = p._device ∨
    (env.portalConnectToDevice p d)._device = none

/-- The states a session can be in: after its construction, and after any
sequence of `connectToDevice`, `reconnectToDevice`, `portalDidUpdateDeviceList`
and `portalDeviceDidReceivePacket` calls, with the directory and the connection
status of the active handle changing in between. -/
inductive Reachable (env : Env) : IOSCameraInput → Prop where
  | construct (settings : String) (devices : DeviceMap) :
      Reachable env (IOSCameraInput.construct env settings devices)
  | connectToDevice (uuid : String) (force : Bool) (s : IOSCameraInput) :
      Reachable env s → Reachable env (connectToDevice env uuid force s)
  | reconnectToDevice (s : IOSCameraInput) :
      Reachable env s → Reachable env (reconnectToDevice env s)
  | portalDidUpdateDeviceList (deviceList : DeviceMap) (s : IOSCameraInput) :
      Reachable env s → Reachable env (portalDidUpdateDeviceList env deviceList s)
  | portalDeviceDidReceivePacket (packet : Packet) (type tag : Int) (s : IOSCameraInput) :
      Reachable env s → Reachable env (portalDeviceDidReceivePacket env packet type tag s)
  | refreshDirectory (snapshot : DeviceMap) (s : IOSCameraInput) :
      Reachable env s → Reachable env (refreshDirectory snapshot s)
  | observeConnection (connected : Bool) (s : IOSCameraInput) :
      Reachable env s → Reachable env (observeConnection connected s)

/-- The active handle, when there is one, has the UUID in `deviceUUID`. -/
def ActiveMatchesDesired (s : IOSCameraInput) : Prop :=
  ∀ dev, s.portal._device = some dev → dev.uuid = s.deviceUUID

/-- Phone `A` while it reports not connected. -/
def phoneAUnplugged : Device := { handle := 1, uuid := "A", isConnected := false }

/-- The session after `connectToDevice("A", false)` missed: constructed with an
empty stored UUID and an empty directory, then asked for `A`. -/
def sessionMissedA : IOSCameraInput :=
  connectToDevice sampleEnv "A" false (IOSCameraInput.construct sampleEnv "" [])

/-! ### Session creation and the operations on a session -/

/-- Modelled from the spec: the host settings object `obs_data_t` (its
declaration is in `obs-module.h`, not among the sources), with the two values
the plugin stores in it: `SETTING_DEVICE_UUID` and
`SETTING_PROP_HARDWARE_DECODER`. -/
structure ObsData where
  setting_device_uuid : String
  setting_use_hw_decoder : Bool
deriving DecidableEq, Repr

/-- Whether one of the `Init()` calls of the constructor (lines 83-92) raises,
so that the constructor does not complete. -/
def constructorRaises (env : Env) : Bool :=
  (env.apple && env.initRaises (Decoder.video VideoDecoder.videoToolboxVideoDecoder)) ||
    env.initRaises (Decoder.video VideoDecoder.ffmpegVideoDecoder) ||
    env.initRaises Decoder.audioDecoder

/-- `CreateIOSCameraInput(settings, source)` (lines 371-384): the session that
`new IOSCameraInput(source, settings)` builds; `none` when the constructor
raised (a `const char*` is caught and `nullptr` returned; any other exception
leaves the function, and no session exists either).  The constructor reads the
device UUID from `settings` and nothing else. -/
def CreateIOSCameraInput (env : Env) (settings : ObsData) (devices : DeviceMap) :
    Option IOSCameraInput :=
  if constructorRaises env then none
  else some (IOSCameraInput.construct env settings.setting_device_uuid devices)

/-- The calls and outside changes a session can see after its creation: the
methods and callbacks of the source, and the two changes of the portal. -/
inductive SessionOp where
  | connectToDevice (uuid : String) (force : Bool)
  | reconnectToDevice
  | portalDidUpdateDeviceList (deviceList : DeviceMap)
  | portalDeviceDidReceivePacket (packet : Packet) (type tag : Int)
  | update_hardware_decoding (useHardwareDecoder : Bool)
  | prev_filter
  | next_filter
  | wildcard
  | UpdateIOSCameraInput (intensity : Nat)
  | refreshDirectory (snapshot : DeviceMap)
  | observeConnection (connected : Bool)
deriving DecidableEq, Repr

/-- Run one operation on a session. -/
def SessionOp.apply (env : Env) (w : Wire) (op : SessionOp) (s : IOSCameraInput) :
    IOSCameraInput :=
  match op with
  | SessionOp.connectToDevice uuid force => Hyperstream.connectToDevice env uuid force s
  | SessionOp.reconnectToDevice => Hyperstream.reconnectToDevice env s
  | SessionOp.portalDidUpdateDeviceList deviceList =>
    Hyperstream.portalDidUpdateDeviceList env deviceList s
  | SessionOp.portalDeviceDidReceivePacket packet type tag =>
    Hyperstream.portalDeviceDidReceivePacket env packet type tag s
  | SessionOp.update_hardware_decoding useHardwareDecoder =>
    Hyperstream.update_hardware_decoding useHardwareDecoder s
  | SessionOp.prev_filter => Hyperstream.prev_filter w s
  | SessionOp.next_filter => Hyperstream.next_filter w s
  | SessionOp.wildcard => Hyperstream.wildcard w s
  | SessionOp.UpdateIOSCameraInput intensity =>
    match Hyperstream.UpdateIOSCameraInput w intensity (some s) with
    | some t => t
    | none => s
  | SessionOp.refreshDirectory snapshot => Hyperstream.refreshDirectory snapshot s
  | SessionOp.observeConnection connected => Hyperstream.observeConnection connected s

/-- Run a sequence of operations on a session, in order. -/
def runOps (env : Env) (w : Wire) (ops : List SessionOp) (s : IOSCameraInput) :
    IOSCameraInput :=
  ops.foldl (fun st op => op.apply env w st) s

/-- The value that the latest `update_hardware_decoding` call of a sequence
read from the settings; `none` when the sequence has no such call. -/
def lastHardwareSetting : List SessionOp → Option Bool
  | [] => none
  | op :: ops =>
    match lastHardwareSetting ops with
    | some b => some b
    | none =>
      match op with
      | SessionOp.update_hardware_decoding b => some b
      | _ => none

/-- The video decoder that follows from the latest `update_hardware_decoding`
call: the hardware decoder when it read `true`, the software decoder when it
read `false` or never ran. -/
def selectedVideoDecoder : Option Bool → VideoDecoder
  | some true => VideoDecoder.videoToolboxVideoDecoder
  | _ => VideoDecoder.ffmpegVideoDecoder

/-- Whether no `connectToDevice` call was made on the session so far. -/
def noConnectAttemptYet (s : IOSCameraInput) : Bool :=
  (connectCalls s.log).isEmpty

/-- Whether no connect was initiated on any device so far. -/
def neverConnected (s : IOSCameraInput) : Bool :=
  (connectsInitiated s.log).isEmpty

/-- Stored settings with an empty device UUID and hardware decoding switched on. -/
def hardwareSettingOn : ObsData :=
  { setting_device_uuid := "", setting_use_hw_decoder := true }

/-- The session constructed with the stored UUID `A` and phone `A` in the
directory, which connected to phone `A`, after it was asked for the empty UUID. -/
def sessionResetAfterA : IOSCameraInput :=
  connectToDevice sampleEnv "" false (IOSCameraInput.construct sampleEnv "A" [(0, phoneA)])

/-! ### Structural lemmas -/

theorem foldl_connectIfMatches (env : Env) (uuid : String) (l : DeviceMap)
    (s : IOSCameraInput) :
    l.foldl (connectIfMatches env uuid) s =
      { s with
        portal := (matching uuid l).foldl env.portalConnectToDevice s.portal
        log := s.log ++ (matching uuid l).map Event.portalConnect } := by
  induction l generalizing s with
  | nil => simp [matching]
  | cons e l ih =>
    rw [List.foldl_cons, ih]
    by_cases h : e.2.uuid = uuid
    · simp [connectIfMatches, matching, emit, h]
    · simp [connectIfMatches, matching, h]

theorem newEvents_of_log (s t : IOSCameraInput) (es : List Event)
    (h : t.log = s.log ++ es) : newEvents s t = es := by
  simp [newEvents, h]

theorem connectToDevice_skip (env : Env) (uuid : String) (force : Bool)
    (s : IOSCameraInput) (dev : Device) (hdev : s.portal._device = some dev)
    (hg : alreadyConnected dev uuid force = true) :
    connectToDevice env uuid force s = emit s (Event.connectToDevice uuid force) := by
  simp [connectToDevice, emit, hdev, hg]

theorem flushDecoders_eq (env : Env) (s : IOSCameraInput) :
    flushDecoders env s = { s with log := s.log ++ flushEvents env } := by
  cases h : env.apple <;> simp [flushDecoders, flushEvents, emit, h]

theorem connectToDevice_switch (env : Env) (uuid : String) (force : Bool)
    (s : IOSCameraInput) (dev : Device) (hdev : s.portal._device = some dev)
    (hg : alreadyConnected dev uuid force = false) :
    connectToDevice env uuid force s =
      { s with
        portal := (matching uuid s.portal.devices).foldl env.portalConnectToDevice
          { s.portal with _device := none }
        deviceUUID := uuid
        log := s.log ++ Event.connectToDevice uuid force :: Event.disconnect dev ::
          (flushEvents env ++ (matching uuid s.portal.devices).map Event.portalConnect) } := by
  simp [connectToDevice, emit, hdev, hg, findDevice, flushDecoders_eq, disconnectOld,
    foldl_connectIfMatches]

theorem connectToDevice_fresh (env : Env) (uuid : String) (force : Bool)
    (s : IOSCameraInput) (hdev : s.portal._device = none) :
    connectToDevice env uuid force s =
      { s with
        portal := (matching uuid s.portal.devices).foldl env.portalConnectToDevice s.portal
        deviceUUID := uuid
        log := s.log ++ Event.connectToDevice uuid force ::
          (flushEvents env ++ (matching uuid s.portal.devices).map Event.portalConnect) } := by
  simp [connectToDevice, emit, hdev, findDevice, flushDecoders_eq, foldl_connectIfMatches]

theorem split_after_prefix {α : Type} (A B pre post : List α) (x : α)
    (hx : x ∉ A) (h : A ++ B = pre ++ x :: post) :
    ∃ mid, pre = A ++ mid ∧ B = mid ++ x :: post := by
  induction A generalizing pre with
  | nil => exact ⟨pre, by simp, by simpa using h⟩
  | cons a A ih =>
    cases pre with
    | nil =>
      simp only [List.cons_append, List.nil_append, List.cons.injEq] at h
      exact absurd h.1.symm (fun hax => hx (by simp [hax]))
    | cons p pre =>
      simp only [List.cons_append, List.cons.injEq] at h
      obtain ⟨mid, h1, h2⟩ := ih pre (fun hm => hx (List.mem_cons_of_mem _ hm)) h.2
      exact ⟨mid, by simp [h.1, h1], h2⟩

theorem flushes_map_portalConnect (ds : List Device) :
    flushes (ds.map Event.portalConnect) = [] := by
  induction ds with
  | nil => rfl
  | cons d ds ih => simp [flushes]

theorem disconnects_map_portalConnect (ds : List Device) :
    disconnects (ds.map Event.portalConnect) = [] := by
  induction ds with
  | nil => rfl
  | cons d ds ih => simp [disconnects]

theorem connectsInitiated_map_portalConnect (ds : List Device) :
    connectsInitiated (ds.map Event.portalConnect) = ds := by
  induction ds with
  | nil => rfl
  | cons d ds ih => simpa [connectsInitiated] using ih

theorem connectCalls_map_portalConnect (ds : List Device) :
    connectCalls (ds.map Event.portalConnect) = [] := by
  induction ds with
  | nil => rfl
  | cons d ds ih => simp [connectCalls]

theorem flushes_append (xs ys : List Event) :
    flushes (xs ++ ys) = flushes xs ++ flushes ys := by
  simp [flushes, List.filterMap_append]

theorem disconnects_append (xs ys : List Event) :
    disconnects (xs ++ ys) = disconnects xs ++ disconnects ys := by
  simp [disconnects, List.filterMap_append]

theorem portalConnect_not_mem_flushEvents (env : Env) (d : Device) :
    Event.portalConnect d ∉ flushEvents env := by
  cases h : env.apple <;> simp [flushEvents, h]

theorem alreadyConnected_eq_false (dev : Device) (uuid : String) (force : Bool)
    (h : force = true ∨ dev.uuid ≠ uuid ∨ dev.isConnected = false) :
    alreadyConnected dev uuid force = false := by
  rcases h with h | h | h <;> simp [alreadyConnected, h]

/-! ### C1 -/

/-- C1: when the active handle has UUID `uuid` and reports connected,
`connectToDevice(uuid, false)` only records that it was called: it performs no
disconnect, initiates no connect, flushes no decoder, and leaves the active
handle and `deviceUUID` (every field but the log) as they were; a second call
in a row does the same. -/
theorem connectToDevice_guard_noop (env : Env) (uuid : String) (s : IOSCameraInput)
    (dev : Device) (hdev : s.portal._device = some dev) (hu : dev.uuid = uuid)
    (hc : dev.isConnected = true) :
    connectToDevice env uuid false s = emit s (Event.connectToDevice uuid false) ∧
    disconnects (newEvents s (connectToDevice env uuid false s)) = [] ∧
    connectsInitiated (newEvents s (connectToDevice env uuid false s)) = [] ∧
    flushes (newEvents s (connectToDevice env uuid false s)) = [] ∧
    (connectToDevice env uuid false s).portal._device = s.portal._device ∧
    (connectToDevice env uuid false s).deviceUUID = s.deviceUUID ∧
    newEvents (connectToDevice env uuid false s)
      (connectToDevice env uuid false (connectToDevice env uuid false s)) =
        [Event.connectToDevice uuid false] ∧
    (connectToDevice env uuid false (connectToDevice env uuid false s)).portal._device =
      s.portal._device ∧
    (connectToDevice env uuid false (connectToDevice env uuid false s)).deviceUUID =
      s.deviceUUID := by
  have hg : alreadyConnected dev uuid false = true := by simp [alreadyConnected, hu, hc]
  have h1 := connectToDevice_skip env uuid false s dev hdev hg
  have h2 := connectToDevice_skip env uuid false (emit s (Event.connectToDevice uuid false))
    dev (by simpa [emit] using hdev) hg
  rw [h1, h2]
  refine ⟨rfl, ?_, ?_, ?_, rfl, rfl, ?_, rfl, rfl⟩ <;>
    simp [newEvents, emit, disconnects, connectsInitiated, flushes]

/-- C1 at the sample session, which is connected to phone `A`. -/
theorem connectToDevice_guard_noop_witness :
    sessionOnA.portal._device = some phoneA ∧ phoneA.uuid = "A" ∧
    phoneA.isConnected = true ∧
    connectToDevice sampleEnv "A" false sessionOnA =
      emit sessionOnA (Event.connectToDevice "A" false) :=
  ⟨rfl, rfl, rfl, (connectToDevice_guard_noop sampleEnv "A" sessionOnA phoneA rfl rfl rfl).1⟩

/-! ### C2 -/

/-- C2: when an active handle `dev` exists and the guard does not apply (`force`,
or another UUID, or not connected), the call logs, in this order, the disconnect
of `dev`, the decoder flushes it makes, and then the connects, one per matching
snapshot entry; the connects act on a portal whose `_device` was cleared (so
`_device` is empty when nothing matches); and at the moment any connect is
initiated, the disconnect of `dev` and every disconnect and flush of the call
have already happened. -/
theorem connectToDevice_disconnect_before_switch (env : Env) (uuid : String)
    (force : Bool) (s : IOSCameraInput) (dev : Device)
    (hdev : s.portal._device = some dev)
    (hg : force = true ∨ dev.uuid ≠ uuid ∨ dev.isConnected = false) :
    newEvents s (connectToDevice env uuid force s) =
      Event.connectToDevice uuid force :: Event.disconnect dev ::
        (flushEvents env ++ (matching uuid s.portal.devices).map Event.portalConnect) ∧
    (connectToDevice env uuid force s).portal =
      (matching uuid s.portal.devices).foldl env.portalConnectToDevice
        { s.portal with _device := none } ∧
    (matching uuid s.portal.devices = [] →
      (connectToDevice env uuid force s).portal._device = none) ∧
    (∀ pre post d,
      newEvents s (connectToDevice env uuid force s) = pre ++ Event.portalConnect d :: post →
        Event.disconnect dev ∈ pre ∧
        disconnects pre = disconnects (newEvents s (connectToDevice env uuid force s)) ∧
        flushes pre = flushes (newEvents s (connectToDevice env uuid force s))) := by
  have hsw := connectToDevice_switch env uuid force s dev hdev
    (alreadyConnected_eq_false dev uuid force hg)
  have hnew : newEvents s (connectToDevice env uuid force s) =
      Event.connectToDevice uuid force :: Event.disconnect dev ::
        (flushEvents env ++ (matching uuid s.portal.devices).map Event.portalConnect) :=
    newEvents_of_log _ _ _ (by rw [hsw])
  refine ⟨hnew, by rw [hsw], ?_, ?_⟩
  · intro hm
    rw [hsw, hm]
    rfl
  · intro pre post d hsplit
    rw [hnew] at hsplit ⊢
    have hsplit2 : (Event.connectToDevice uuid force :: Event.disconnect dev ::
        flushEvents env) ++ (matching uuid s.portal.devices).map Event.portalConnect =
        pre ++ Event.portalConnect d :: post := by simpa using hsplit
    obtain ⟨mid, hpre, hmid⟩ := split_after_prefix _ _ pre post _ (by
      simp [portalConnect_not_mem_flushEvents]) hsplit2
    have hfm : flushes mid = [] := by
      have := flushes_map_portalConnect (matching uuid s.portal.devices)
      rw [hmid, flushes_append] at this
      exact (List.append_eq_nil.mp this).1
    have hdm : disconnects mid = [] := by
      have := disconnects_map_portalConnect (matching uuid s.portal.devices)
      rw [hmid, disconnects_append] at this
      exact (List.append_eq_nil.mp this).1
    have e1 : Event.connectToDevice uuid force :: Event.disconnect dev ::
        (flushEvents env ++ (matching uuid s.portal.devices).map Event.portalConnect) =
        (Event.connectToDevice uuid force :: Event.disconnect dev :: flushEvents env) ++
          (matching uuid s.portal.devices).map Event.portalConnect := by simp
    refine ⟨by simp [hpre], ?_, ?_⟩
    · rw [e1, hpre, disconnects_append, disconnects_append, hdm,
        disconnects_map_portalConnect]
    · rw [e1, hpre, flushes_append, flushes_append, hfm, flushes_map_portalConnect]

/-- C2 at the sample session: connected to `A`, asked for `B`. -/
theorem connectToDevice_disconnect_before_switch_witness :
    sessionOnA.portal._device = some phoneA ∧
    (false = true ∨ phoneA.uuid ≠ "B" ∨ phoneA.isConnected = false) ∧
    newEvents sessionOnA (connectToDevice sampleEnv "B" false sessionOnA) =
      Event.connectToDevice "B" false :: Event.disconnect phoneA ::
        (flushEvents sampleEnv ++
          (matching "B" sessionOnA.portal.devices).map Event.portalConnect) :=
  ⟨rfl, Or.inr (Or.inl (by decide)),
    (connectToDevice_disconnect_before_switch sampleEnv "B" false sessionOnA phoneA rfl
      (Or.inr (Or.inl (by decide)))).1⟩

/-! ### The events of one `connectToDevice` call -/

theorem newEvents_connectToDevice (env : Env) (uuid : String) (force : Bool)
    (s : IOSCameraInput) :
    newEvents s (connectToDevice env uuid force s) =
      match s.portal._device with
      | some dev =>
        if alreadyConnected dev uuid force then [Event.connectToDevice uuid force]
        else Event.connectToDevice uuid force :: Event.disconnect dev ::
          (flushEvents env ++ (matching uuid s.portal.devices).map Event.portalConnect)
      | none => Event.connectToDevice uuid force ::
          (flushEvents env ++ (matching uuid s.portal.devices).map Event.portalConnect) := by
  cases hdev : s.portal._device with
  | none =>
    exact newEvents_of_log _ _ _ (by rw [connectToDevice_fresh env uuid force s hdev])
  | some dev =>
    cases hg : alreadyConnected dev uuid force with
    | true =>
      rw [connectToDevice_skip env uuid force s dev hdev hg]
      simp [newEvents, emit, hg]
    | false =>
      rw [newEvents_of_log _ _ _
        (by rw [connectToDevice_switch env uuid force s dev hdev hg])]
      simp [hg]

theorem newEvents_connectToDevice_of_not_guard (env : Env) (uuid : String) (force : Bool)
    (s : IOSCameraInput) (h : guardApplies s uuid force = false) :
    ∃ pre, connectsInitiated pre = [] ∧
      newEvents s (connectToDevice env uuid force s) =
        pre ++ (flushEvents env ++ (matching uuid s.portal.devices).map Event.portalConnect) := by
  rw [newEvents_connectToDevice]
  cases hdev : s.portal._device with
  | none => exact ⟨[Event.connectToDevice uuid force], rfl, rfl⟩
  | some dev =>
    have hg : alreadyConnected dev uuid force = false := by
      simpa [guardApplies, hdev] using h
    exact ⟨[Event.connectToDevice uuid force, Event.disconnect dev], rfl, by simp [hg]⟩

theorem connectsInitiated_append (xs ys : List Event) :
    connectsInitiated (xs ++ ys) = connectsInitiated xs ++ connectsInitiated ys := by
  simp [connectsInitiated, List.filterMap_append]

theorem connectsInitiated_flushEvents (env : Env) :
    connectsInitiated (flushEvents env) = [] := by
  cases h : env.apple <;> simp [flushEvents, h, connectsInitiated]

theorem flushes_flushEvents (env : Env) :
    flushes (flushEvents env) =
      if env.apple then
        [Decoder.video VideoDecoder.ffmpegVideoDecoder,
         Decoder.video VideoDecoder.videoToolboxVideoDecoder]
      else [Decoder.video VideoDecoder.ffmpegVideoDecoder] := by
  cases h : env.apple <;> simp [flushEvents, h, flushes]

theorem connectsInitiated_connectToDevice (env : Env) (uuid : String) (force : Bool)
    (s : IOSCameraInput) (h : guardApplies s uuid force = false) :
    connectsInitiated (newEvents s (connectToDevice env uuid force s)) =
      matching uuid s.portal.devices := by
  obtain ⟨pre, hpre, hnew⟩ := newEvents_connectToDevice_of_not_guard env uuid force s h
  rw [hnew, connectsInitiated_append, connectsInitiated_append, hpre,
    connectsInitiated_flushEvents, connectsInitiated_map_portalConnect]
  rfl

theorem connectToDevice_state_of_not_guard (env : Env) (uuid : String) (force : Bool)
    (s : IOSCameraInput) (h : guardApplies s uuid force = false) :
    (connectToDevice env uuid force s).deviceUUID = uuid ∧
    (connectToDevice env uuid force s).portal =
      (matching uuid s.portal.devices).foldl env.portalConnectToDevice
        { s.portal with _device := none } := by
  cases hdev : s.portal._device with
  | none =>
    rw [connectToDevice_fresh env uuid force s hdev]
    refine ⟨rfl, ?_⟩
    have : s.portal = { s.portal with _device := none } := by
      cases hp : s.portal with
      | mk d ds => simp [hp] at hdev; simp [hdev]
    simp only
    rw [← this]
  | some dev =>
    have hg : alreadyConnected dev uuid force = false := by
      simpa [guardApplies, hdev] using h
    rw [connectToDevice_switch env uuid force s dev hdev hg]
    exact ⟨rfl, rfl⟩

theorem matching_eq_nil (uuid : String) (l : DeviceMap)
    (h : ∀ e ∈ l, e.2.uuid ≠ uuid) : matching uuid l = [] := by
  simp only [matching, List.filter_eq_nil_iff, List.mem_map]
  rintro d ⟨e, he, rfl⟩
  simpa using h e he

theorem mem_matching (uuid : String) (l : DeviceMap) (d : Device) :
    d ∈ matching uuid l ↔ (∃ i, (i, d) ∈ l) ∧ d.uuid = uuid := by
  simp [matching, List.mem_filter]

theorem matching_length_le_one (uuid : String) (l : DeviceMap)
    (h : (l.map fun e => e.2.uuid).Nodup) : (matching uuid l).length ≤ 1 := by
  induction l with
  | nil => simp [matching]
  | cons e l ih =>
    simp only [List.map_cons, List.nodup_cons, List.mem_map, not_exists, not_and] at h
    by_cases he : e.2.uuid = uuid
    · have hnil : matching uuid l = [] :=
        matching_eq_nil uuid l (fun x hx hxu => h.1 x hx (hxu.trans he.symm))
      have : matching uuid (e :: l) = e.2 :: matching uuid l := by
        simp [matching, he]
      simp [this, hnil]
    · have : matching uuid (e :: l) = matching uuid l := by
        simp [matching, he]
      rw [this]
      exact ih h.2

theorem flushes_cons_call (u : String) (f : Bool) (l : List Event) :
    flushes (Event.connectToDevice u f :: l) = flushes l := by
  simp [flushes]

theorem flushes_cons_disconnect (d : Device) (l : List Event) :
    flushes (Event.disconnect d :: l) = flushes l := by
  simp [flushes]

theorem disconnects_cons_call (u : String) (f : Bool) (l : List Event) :
    disconnects (Event.connectToDevice u f :: l) = disconnects l := by
  simp [disconnects]

theorem disconnects_cons_disconnect (d : Device) (l : List Event) :
    disconnects (Event.disconnect d :: l) = d :: disconnects l := by
  simp [disconnects]

theorem disconnects_flushEvents (env : Env) : disconnects (flushEvents env) = [] := by
  cases h : env.apple <;> simp [flushEvents, h, disconnects]

theorem flushes_connectToDevice (env : Env) (uuid : String) (force : Bool)
    (s : IOSCameraInput) :
    flushes (newEvents s (connectToDevice env uuid force s)) =
      if guardApplies s uuid force then [] else flushes (flushEvents env) := by
  cases hdev : s.portal._device with
  | none =>
    rw [newEvents_of_log _ _ _ (by rw [connectToDevice_fresh env uuid force s hdev]),
      flushes_cons_call, flushes_append, flushes_map_portalConnect]
    simp [guardApplies, hdev]
  | some dev =>
    cases hg : alreadyConnected dev uuid force with
    | true =>
      rw [connectToDevice_skip env uuid force s dev hdev hg]
      simp [newEvents, emit, guardApplies, hdev, hg, flushes]
    | false =>
      rw [newEvents_of_log _ _ _
        (by rw [connectToDevice_switch env uuid force s dev hdev hg]),
        flushes_cons_call, flushes_cons_disconnect, flushes_append,
        flushes_map_portalConnect]
      simp [guardApplies, hdev, hg]

theorem audio_not_flushed (env : Env) (uuid : String) (force : Bool) (s : IOSCameraInput) :
    Decoder.audioDecoder ∉ flushes (newEvents s (connectToDevice env uuid force s)) := by
  rw [flushes_connectToDevice, flushes_flushEvents]
  cases guardApplies s uuid force <;> cases env.apple <;> simp

theorem disconnects_connectToDevice_switch (env : Env) (uuid : String) (force : Bool)
    (s : IOSCameraInput) (dev : Device) (hdev : s.portal._device = some dev)
    (hg : alreadyConnected dev uuid force = false) :
    disconnects (newEvents s (connectToDevice env uuid force s)) = [dev] := by
  rw [newEvents_of_log _ _ _
    (by rw [connectToDevice_switch env uuid force s dev hdev hg]),
    disconnects_cons_call, disconnects_cons_disconnect, disconnects_append,
    disconnects_map_portalConnect, disconnects_flushEvents]
  rfl

theorem length_lt_one_iff (u : String) : u.length < 1 ↔ u = "" := by
  cases u with
  | mk data =>
    cases data with
    | nil => simp [String.length]
    | cons c cs =>
      simp only [String.length, List.length_cons]
      constructor
      · intro h; omega
      · intro h
        exact absurd (congrArg String.data h) (by simp)

/-! ### C3 -/

/-- C3, evaluated where it fails: switching the sample session (connected to
phone `A`, Apple build) to `B` is not the skipped call, and the decoders it
flushes are the two video decoders, in that order; `Flush()` is not called on
the audio decoder. -/
theorem connectToDevice_flushes_video_only :
    guardApplies sessionOnA "B" false = false ∧
    flushes (newEvents sessionOnA (connectToDevice sampleEnv "B" false sessionOnA)) =
      [Decoder.video VideoDecoder.ffmpegVideoDecoder,
       Decoder.video VideoDecoder.videoToolboxVideoDecoder] ∧
    Decoder.audioDecoder ∉
      flushes (newEvents sessionOnA (connectToDevice sampleEnv "B" false sessionOnA)) := by
  decide

/-! ### C4 -/

/-- C4: after every call that is not the skipped one `deviceUUID` is the
requested UUID, whatever the snapshot holds; when no snapshot entry has that
UUID no connect is initiated and `portal._device` is empty.  The call returns a
state in every case: the function is total. -/
theorem connectToDevice_records_uuid (env : Env) (uuid : String) (force : Bool)
    (s : IOSCameraInput) (h : guardApplies s uuid force = false) :
    (connectToDevice env uuid force s).deviceUUID = uuid ∧
    ((∀ e ∈ s.portal.devices, e.2.uuid ≠ uuid) →
      connectsInitiated (newEvents s (connectToDevice env uuid force s)) = [] ∧
      (connectToDevice env uuid force s).portal._device = none) := by
  refine ⟨(connectToDevice_state_of_not_guard env uuid force s h).1, fun habs => ?_⟩
  have hm := matching_eq_nil uuid s.portal.devices habs
  refine ⟨by rw [connectsInitiated_connectToDevice env uuid force s h, hm], ?_⟩
  rw [(connectToDevice_state_of_not_guard env uuid force s h).2, hm]
  rfl

/-- C4 at the sample session: a UUID that is not in the directory. -/
theorem connectToDevice_records_uuid_witness :
    guardApplies sessionOnA "C" false = false ∧
    (∀ e ∈ sessionOnA.portal.devices, e.2.uuid ≠ "C") ∧
    (connectToDevice sampleEnv "C" false sessionOnA).deviceUUID = "C" ∧
    connectsInitiated (newEvents sessionOnA (connectToDevice sampleEnv "C" false sessionOnA))
      = [] ∧
    (connectToDevice sampleEnv "C" false sessionOnA).portal._device = none :=
  ⟨by decide, by decide,
    (connectToDevice_records_uuid sampleEnv "C" false sessionOnA (by decide)).1,
    (connectToDevice_records_uuid sampleEnv "C" false sessionOnA (by decide)).2 (by decide)⟩

/-! ### C5 -/

/-- C5: in every call that is not the skipped one, a connect is initiated on a
handle exactly when the handle is in the snapshot and its UUID is the requested
one (the connects are the matching snapshot entries, in snapshot order); when
the UUIDs of the snapshot are pairwise distinct at most one connect is
initiated.  The active handle is the single optional member `portal._device`,
so no more than one handle is ever active. -/
theorem connectToDevice_connects_matching (env : Env) (uuid : String) (force : Bool)
    (s : IOSCameraInput) (h : guardApplies s uuid force = false) :
    (∀ d, d ∈ connectsInitiated (newEvents s (connectToDevice env uuid force s)) ↔
      (∃ i, (i, d) ∈ s.portal.devices) ∧ d.uuid = uuid) ∧
    connectsInitiated (newEvents s (connectToDevice env uuid force s)) =
      matching uuid s.portal.devices ∧
    ((s.portal.devices.map fun e => e.2.uuid).Nodup →
      (connectsInitiated (newEvents s (connectToDevice env uuid force s))).length ≤ 1) := by
  rw [connectsInitiated_connectToDevice env uuid force s h]
  exact ⟨fun d => mem_matching uuid _ d, rfl, matching_length_le_one uuid _⟩

/-- C5 at the sample session: asked for `B`, the connect goes to phone `B` only. -/
theorem connectToDevice_connects_matching_witness :
    guardApplies sessionOnA "B" false = false ∧
    (sessionOnA.portal.devices.map fun e => e.2.uuid).Nodup ∧
    connectsInitiated (newEvents sessionOnA (connectToDevice sampleEnv "B" false sessionOnA))
      = matching "B" sessionOnA.portal.devices ∧
    (connectsInitiated
      (newEvents sessionOnA (connectToDevice sampleEnv "B" false sessionOnA))).length ≤ 1 :=
  ⟨by decide, by decide,
    (connectToDevice_connects_matching sampleEnv "B" false sessionOnA (by decide)).2.1,
    (connectToDevice_connects_matching sampleEnv "B" false sessionOnA (by decide)).2.2
      (by decide)⟩

/-! ### C6 -/

/-- C6: with an empty `deviceUUID`, `reconnectToDevice` returns the state as it
was (nothing is logged); with a non-empty one it is `connectToDevice(deviceUUID,
true)`, and then an active handle is disconnected, connected to that UUID or
not. -/
theorem reconnectToDevice_spec (env : Env) (s : IOSCameraInput) :
    (s.deviceUUID = "" → reconnectToDevice env s = s) ∧
    (s.deviceUUID ≠ "" →
      reconnectToDevice env s = connectToDevice env s.deviceUUID true s) ∧
    (s.deviceUUID ≠ "" → ∀ dev, s.portal._device = some dev →
      disconnects (newEvents s (reconnectToDevice env s)) = [dev]) := by
  have hne : s.deviceUUID ≠ "" →
      reconnectToDevice env s = connectToDevice env s.deviceUUID true s := by
    intro h
    have : ¬ s.deviceUUID.length < 1 := fun hl => h ((length_lt_one_iff _).1 hl)
    simp [reconnectToDevice, this]
  refine ⟨fun h => ?_, hne, fun h dev hdev => ?_⟩
  · have : s.deviceUUID.length < 1 := (length_lt_one_iff _).2 h
    simp [reconnectToDevice, this]
  · rw [hne h]
    exact disconnects_connectToDevice_switch env s.deviceUUID true s dev hdev
      (by simp [alreadyConnected])

/-- C6 at the sample session (connected to `A`, `deviceUUID` is `A`), and at the
same session with an empty `deviceUUID`. -/
theorem reconnectToDevice_spec_witness :
    sessionOnA.deviceUUID ≠ "" ∧ sessionOnA.portal._device = some phoneA ∧
    disconnects (newEvents sessionOnA (reconnectToDevice sampleEnv sessionOnA)) = [phoneA] ∧
    ({ sessionOnA with deviceUUID := "" } : IOSCameraInput).deviceUUID = "" ∧
    reconnectToDevice sampleEnv { sessionOnA with deviceUUID := "" } =
      { sessionOnA with deviceUUID := "" } :=
  ⟨by decide, rfl,
    (reconnectToDevice_spec sampleEnv sessionOnA).2.2 (by decide) phoneA rfl,
    rfl, (reconnectToDevice_spec sampleEnv { sessionOnA with deviceUUID := "" }).1 rfl⟩

/-! ### The `connectToDevice` calls of a device-list update -/

theorem connectCalls_cons_call (u : String) (f : Bool) (l : List Event) :
    connectCalls (Event.connectToDevice u f :: l) = (u, f) :: connectCalls l := by
  simp [connectCalls]

theorem connectCalls_cons_disconnect (d : Device) (l : List Event) :
    connectCalls (Event.disconnect d :: l) = connectCalls l := by
  simp [connectCalls]

theorem connectCalls_append (xs ys : List Event) :
    connectCalls (xs ++ ys) = connectCalls xs ++ connectCalls ys := by
  simp [connectCalls, List.filterMap_append]

theorem connectCalls_flushEvents (env : Env) : connectCalls (flushEvents env) = [] := by
  cases h : env.apple <;> simp [flushEvents, h, connectCalls]

theorem connectCalls_connectToDevice (env : Env) (uuid : String) (force : Bool)
    (s : IOSCameraInput) :
    connectCalls (newEvents s (connectToDevice env uuid force s)) = [(uuid, force)] := by
  cases hdev : s.portal._device with
  | none =>
    rw [newEvents_of_log _ _ _ (by rw [connectToDevice_fresh env uuid force s hdev]),
      connectCalls_cons_call, connectCalls_append, connectCalls_map_portalConnect,
      connectCalls_flushEvents]
    rfl
  | some dev =>
    cases hg : alreadyConnected dev uuid force with
    | true =>
      rw [connectToDevice_skip env uuid force s dev hdev hg]
      simp [newEvents, emit, connectCalls]
    | false =>
      rw [newEvents_of_log _ _ _
        (by rw [connectToDevice_switch env uuid force s dev hdev hg]),
        connectCalls_cons_call, connectCalls_cons_disconnect, connectCalls_append,
        connectCalls_map_portalConnect, connectCalls_flushEvents]
      rfl

theorem newEvents_self (s : IOSCameraInput) : newEvents s s = [] := by
  simp [newEvents]

theorem isFirstTimeConnectingToDevice_iff (s : IOSCameraInput) :
    isFirstTimeConnectingToDevice s = true ↔ s.deviceUUID = "" := by
  rw [← length_lt_one_iff]
  simp [isFirstTimeConnectingToDevice]

theorem portalDidUpdateDeviceList_single (env : Env) (s : IOSCameraInput) (i : Int)
    (d : Device) :
    portalDidUpdateDeviceList env [(i, d)] s =
      if shouldAutoConnect s d then
        connectToDevice env d.uuid false { s with settingDeviceUUID := d.uuid }
      else s := by
  simp [portalDidUpdateDeviceList, autoConnectStep]

theorem connectCalls_portalDidUpdateDeviceList_single (env : Env) (s : IOSCameraInput)
    (i : Int) (d : Device) :
    connectCalls (newEvents s (portalDidUpdateDeviceList env [(i, d)] s)) =
      if shouldAutoConnect s d then [(d.uuid, false)] else [] := by
  rw [portalDidUpdateDeviceList_single]
  cases h : shouldAutoConnect s d with
  | true =>
    have := connectCalls_connectToDevice env d.uuid false
      { s with settingDeviceUUID := d.uuid }
    simpa [newEvents] using this
  | false => simp [newEvents_self, connectCalls]

theorem shouldAutoConnect_iff (s : IOSCameraInput) (d : Device) :
    shouldAutoConnect s d = true ↔
      isFirstTimeConnectingToDevice s = true ∨
        (d.uuid = s.deviceUUID ∧ d.isConnected = false) := by
  simp only [shouldAutoConnect, isThisDeviceTheSameAsThePreviouslyConnectedDevice,
    Bool.or_eq_true, Bool.and_eq_true, beq_iff_eq, Bool.not_eq_true']
  constructor
  · rintro (h | ⟨h1, h2⟩)
    · exact Or.inl h
    · exact Or.inr ⟨h1.symm, h2⟩
  · rintro (h | ⟨h1, h2⟩)
    · exact Or.inl h
    · exact Or.inr ⟨h1.symm, h2⟩

theorem shouldAutoConnect_iff_empty (s : IOSCameraInput) (d : Device) :
    shouldAutoConnect s d = true ↔
      s.deviceUUID = "" ∨ (d.uuid = s.deviceUUID ∧ d.isConnected = false) := by
  rw [shouldAutoConnect_iff, isFirstTimeConnectingToDevice_iff]

/-! ### C7 -/

/-- C7 fails as stated, whether "first-ever connection attempt" means that no
`connectToDevice` call was made before or that no connect was initiated before.
The session that was constructed with the stored UUID `A` and phone `A` in the
directory (so it connected to `A`) and was then asked for the empty UUID has
made calls and has connected, and phone `B`, whose UUID is not `deviceUUID`,
alone in the list still gets a `connectToDevice("B", false)` call.  The session
constructed with the stored UUID `A` and an empty directory never initiated a
connect, and phone `B` alone in the list gets no call. -/
theorem autoConnect_not_by_first_attempt :
    ¬ ((phoneB.uuid, false) ∈ connectCalls (newEvents sessionResetAfterA
          (portalDidUpdateDeviceList sampleEnv [(0, phoneB)] sessionResetAfterA)) ↔
        (noConnectAttemptYet sessionResetAfterA = true ∨
          (phoneB.uuid = sessionResetAfterA.deviceUUID ∧ phoneB.isConnected = false))) ∧
    ¬ ((phoneB.uuid, false) ∈ connectCalls (newEvents sessionResetAfterA
          (portalDidUpdateDeviceList sampleEnv [(0, phoneB)] sessionResetAfterA)) ↔
        (neverConnected sessionResetAfterA = true ∨
          (phoneB.uuid = sessionResetAfterA.deviceUUID ∧ phoneB.isConnected = false))) ∧
    ¬ ((phoneB.uuid, false) ∈ connectCalls (newEvents sessionAwaitingA
          (portalDidUpdateDeviceList sampleEnv [(0, phoneB)] sessionAwaitingA)) ↔
        (neverConnected sessionAwaitingA = true ∨
          (phoneB.uuid = sessionAwaitingA.deviceUUID ∧ phoneB.isConnected = false))) := by
  decide

/-- C7, amended: for a device list with exactly one device `d`,
`portalDidUpdateDeviceList` calls `connectToDevice(d.uuid, false)` (once, and
nothing else) exactly when `deviceUUID` is empty, or `d.uuid` is `deviceUUID`
and `d` reports not connected; otherwise it makes no call and returns the state
as it was.  For every list with more than one device it returns the state as
it was, so nothing is called. -/
theorem portalDidUpdateDeviceList_policy (env : Env) (s : IOSCameraInput) :
    (∀ i d, ((d.uuid, false) ∈
        connectCalls (newEvents s (portalDidUpdateDeviceList env [(i, d)] s)) ↔
      (s.deviceUUID = "" ∨ (d.uuid = s.deviceUUID ∧ d.isConnected = false)))) ∧
    (∀ i d, connectCalls (newEvents s (portalDidUpdateDeviceList env [(i, d)] s)) =
      if s.deviceUUID = "" ∨ (d.uuid = s.deviceUUID ∧ d.isConnected = false)
        then [(d.uuid, false)] else []) ∧
    (∀ i d, ¬ (s.deviceUUID = "" ∨ (d.uuid = s.deviceUUID ∧ d.isConnected = false)) →
      portalDidUpdateDeviceList env [(i, d)] s = s) ∧
    (∀ deviceList : DeviceMap, 1 < deviceList.length →
      portalDidUpdateDeviceList env deviceList s = s ∧
      connectCalls (newEvents s (portalDidUpdateDeviceList env deviceList s)) = []) := by
  refine ⟨fun i d => ?_, fun i d => ?_, fun i d h => ?_, fun l hl => ?_⟩
  · rw [connectCalls_portalDidUpdateDeviceList_single, ← shouldAutoConnect_iff_empty]
    cases shouldAutoConnect s d <;> simp
  · rw [connectCalls_portalDidUpdateDeviceList_single]
    simp only [← shouldAutoConnect_iff_empty]
  · rw [← shouldAutoConnect_iff_empty] at h
    rw [portalDidUpdateDeviceList_single]
    simp [h]
  · have hne : ¬ l.length = 1 := by omega
    have : portalDidUpdateDeviceList env l s = s := by
      simp [portalDidUpdateDeviceList, hne]
    rw [this, newEvents_self]
    exact ⟨rfl, rfl⟩

/-- C7 amended, at the sample session: phone `B` alone in the list, while the
session wants `A`, is left alone; both phones in the list change nothing. -/
theorem portalDidUpdateDeviceList_policy_witness :
    ¬ (sessionOnA.deviceUUID = "" ∨
        (phoneB.uuid = sessionOnA.deviceUUID ∧ phoneB.isConnected = false)) ∧
    portalDidUpdateDeviceList sampleEnv [(0, phoneB)] sessionOnA = sessionOnA ∧
    1 < [((0 : Int), phoneA), (1, phoneB)].length ∧
    portalDidUpdateDeviceList sampleEnv [(0, phoneA), (1, phoneB)] sessionOnA =
      sessionOnA :=
  ⟨by decide,
    (portalDidUpdateDeviceList_policy sampleEnv sessionOnA).2.2.1 0 phoneB (by decide),
    by decide,
    ((portalDidUpdateDeviceList_policy sampleEnv sessionOnA).2.2.2
      [(0, phoneA), (1, phoneB)] (by decide)).1⟩

/-! ### C8 -/

/-- C8 fails as stated: the session constructed with the stored UUID `A` and an
empty directory has never seen the UUID `B`, and a device list holding only
phone `B` triggers no `connectToDevice` call, not one. -/
theorem unseen_single_device_not_connected :
    ¬ (uuidSeen sessionAwaitingA "B" = false →
      (connectCalls (newEvents sessionAwaitingA
        (portalDidUpdateDeviceList sampleEnv [(0, phoneB)] sessionAwaitingA))).length = 1) := by
  decide

/-- C8, amended: when `deviceUUID` is empty, a device list with exactly one
device triggers exactly one `connectToDevice` call, for that device and without
force, whether its UUID was seen before or not; when `deviceUUID` is not empty
and is not the device's UUID, it triggers none; a list of two devices triggers
none. -/
theorem portalDidUpdateDeviceList_call_count (env : Env) (s : IOSCameraInput) :
    (∀ i d, s.deviceUUID = "" →
      connectCalls (newEvents s (portalDidUpdateDeviceList env [(i, d)] s)) =
        [(d.uuid, false)]) ∧
    (∀ i d, s.deviceUUID ≠ "" → s.deviceUUID ≠ d.uuid →
      connectCalls (newEvents s (portalDidUpdateDeviceList env [(i, d)] s)) = []) ∧
    (∀ e1 e2,
      connectCalls (newEvents s (portalDidUpdateDeviceList env [e1, e2] s)) = []) := by
  refine ⟨fun i d h => ?_, fun i d h1 h2 => ?_, fun e1 e2 => ?_⟩
  · rw [connectCalls_portalDidUpdateDeviceList_single]
    have : shouldAutoConnect s d = true :=
      (shouldAutoConnect_iff s d).2 (Or.inl ((isFirstTimeConnectingToDevice_iff s).2 h))
    simp [this]
  · rw [connectCalls_portalDidUpdateDeviceList_single]
    have : shouldAutoConnect s d = false := by
      rw [Bool.eq_false_iff, Ne, shouldAutoConnect_iff, isFirstTimeConnectingToDevice_iff]
      rintro (h | ⟨h, _⟩)
      · exact h1 h
      · exact h2 h.symm
    simp [this]
  · have : portalDidUpdateDeviceList env [e1, e2] s = s := by
      simp [portalDidUpdateDeviceList]
    rw [this, newEvents_self]
    rfl

/-- C8 amended, at a session with an empty `deviceUUID` and at the sample
session, whose `deviceUUID` is `A`. -/
theorem portalDidUpdateDeviceList_call_count_witness :
    (IOSCameraInput.construct sampleEnv "" []).deviceUUID = "" ∧
    connectCalls (newEvents (IOSCameraInput.construct sampleEnv "" [])
      (portalDidUpdateDeviceList sampleEnv [(0, phoneB)]
        (IOSCameraInput.construct sampleEnv "" []))) = [(phoneB.uuid, false)] ∧
    sessionOnA.deviceUUID ≠ "" ∧ sessionOnA.deviceUUID ≠ phoneB.uuid ∧
    connectCalls (newEvents sessionOnA
      (portalDidUpdateDeviceList sampleEnv [(0, phoneB)] sessionOnA)) = [] :=
  ⟨by decide,
    (portalDidUpdateDeviceList_call_count sampleEnv
      (IOSCameraInput.construct sampleEnv "" [])).1 0 phoneB (by decide),
    by decide, by decide,
    (portalDidUpdateDeviceList_call_count sampleEnv sessionOnA).2.1 0 phoneB
      (by decide) (by decide)⟩

/-! ### Packet dispatch -/

theorem inputCalls_append (xs ys : List Event) :
    inputCalls (xs ++ ys) = inputCalls xs ++ inputCalls ys := by
  simp [inputCalls, List.filterMap_append]

theorem portalDeviceDidReceivePacket_log (env : Env) (packet : Packet) (type tag : Int)
    (s : IOSCameraInput) :
    ∃ es, portalDeviceDidReceivePacket env packet type tag s = { s with log := s.log ++ es } ∧
      inputCalls es = routedInputs s.videoDecoder ⟨packet, type, tag⟩ ∧
      (type ≠ 101 → type ≠ 102 → es = []) := by
  by_cases h1 : type = 101
  · subst h1
    cases ht : env.inputThrows
        (s.log ++ [Event.input (Decoder.video s.videoDecoder) packet 101 tag]) with
    | false =>
      exact ⟨[Event.input (Decoder.video s.videoDecoder) packet 101 tag],
        by simp [portalDeviceDidReceivePacket, dispatchPacket, decoderInput, emit, ht],
        by simp [inputCalls, routedInputs], fun h => absurd rfl h⟩
    | true =>
      exact ⟨[Event.input (Decoder.video s.videoDecoder) packet 101 tag,
          Event.exceptionCaught],
        by simp [portalDeviceDidReceivePacket, dispatchPacket, decoderInput, emit, ht],
        by simp [inputCalls, routedInputs], fun h => absurd rfl h⟩
  · by_cases h2 : type = 102
    · subst h2
      cases ht : env.inputThrows
          (s.log ++ [Event.input Decoder.audioDecoder packet 102 tag]) with
      | false =>
        exact ⟨[Event.input Decoder.audioDecoder packet 102 tag],
          by simp [portalDeviceDidReceivePacket, dispatchPacket, decoderInput, emit, ht],
          by simp [inputCalls, routedInputs], fun _ h => absurd rfl h⟩
      | true =>
        exact ⟨[Event.input Decoder.audioDecoder packet 102 tag, Event.exceptionCaught],
          by simp [portalDeviceDidReceivePacket, dispatchPacket, decoderInput, emit, ht],
          by simp [inputCalls, routedInputs], fun _ h => absurd rfl h⟩
    · exact ⟨[], by simp [portalDeviceDidReceivePacket, dispatchPacket, h1, h2],
        by simp [inputCalls, routedInputs, h1, h2], fun _ _ => rfl⟩

theorem inputCalls_portalDeviceDidReceivePacket (env : Env) (packet : Packet)
    (type tag : Int) (s : IOSCameraInput) :
    inputCalls (newEvents s (portalDeviceDidReceivePacket env packet type tag s)) =
      routedInputs s.videoDecoder ⟨packet, type, tag⟩ := by
  obtain ⟨es, h, hin, _⟩ := portalDeviceDidReceivePacket_log env packet type tag s
  rw [newEvents_of_log _ _ es (by rw [h]), hin]

theorem receiveAll_log (env : Env) (ps : List Inbound) (s : IOSCameraInput) :
    ∃ es, receiveAll env ps s = { s with log := s.log ++ es } ∧
      inputCalls es = routedInputsAll s.videoDecoder ps := by
  induction ps generalizing s with
  | nil => exact ⟨[], by simp [receiveAll], rfl⟩
  | cons p ps ih =>
    obtain ⟨es1, h1, hin1, _⟩ := portalDeviceDidReceivePacket_log env p.packet p.type p.tag s
    obtain ⟨es2, h2, hin2⟩ := ih (portalDeviceDidReceivePacket env p.packet p.type p.tag s)
    refine ⟨es1 ++ es2, ?_, ?_⟩
    · have : receiveAll env (p :: ps) s =
          receiveAll env ps (portalDeviceDidReceivePacket env p.packet p.type p.tag s) := rfl
      rw [this, h2, h1]
      simp
    · rw [inputCalls_append, hin1, hin2, h1]
      rfl

theorem inputCalls_receiveAll (env : Env) (ps : List Inbound) (s : IOSCameraInput) :
    inputCalls (newEvents s (receiveAll env ps s)) = routedInputsAll s.videoDecoder ps := by
  obtain ⟨es, h, hin⟩ := receiveAll_log env ps s
  rw [newEvents_of_log _ _ es (by rw [h]), hin]

/-! ### C9 -/

/-- C9: a packet of type 101 results in exactly one `Input(packet, 101, tag)`
call, on the selected video decoder, and none on the audio decoder; a packet of
type 102 results in exactly one `Input(packet, 102, tag)` call, on the audio
decoder, and none on a video decoder; for every other type code the function
returns the state as it was, so no decoder is touched.  The function returns a
state for every packet and every type code. -/
theorem portalDeviceDidReceivePacket_dispatch (env : Env) (packet : Packet)
    (type tag : Int) (s : IOSCameraInput) :
    (type = 101 →
      inputCalls (newEvents s (portalDeviceDidReceivePacket env packet type tag s)) =
        [(Decoder.video s.videoDecoder, packet, 101, tag)]) ∧
    (type = 102 →
      inputCalls (newEvents s (portalDeviceDidReceivePacket env packet type tag s)) =
        [(Decoder.audioDecoder, packet, 102, tag)]) ∧
    (type ≠ 101 → type ≠ 102 →
      portalDeviceDidReceivePacket env packet type tag s = s ∧
      inputCalls (newEvents s (portalDeviceDidReceivePacket env packet type tag s)) = []) := by
  rw [inputCalls_portalDeviceDidReceivePacket]
  refine ⟨fun h => by simp [routedInputs, h], fun h => by simp [routedInputs, h],
    fun h1 h2 => ⟨?_, by simp [routedInputs, h1, h2]⟩⟩
  simp [portalDeviceDidReceivePacket, dispatchPacket, h1, h2]

/-- C9 at the sample session: a video packet, an audio packet, and a packet
with control code 106. -/
theorem portalDeviceDidReceivePacket_dispatch_witness :
    inputCalls (newEvents sessionOnA
      (portalDeviceDidReceivePacket sampleEnv [7, 8] 101 5 sessionOnA)) =
        [(Decoder.video sessionOnA.videoDecoder, [7, 8], 101, 5)] ∧
    inputCalls (newEvents sessionOnA
      (portalDeviceDidReceivePacket sampleEnv [7, 8] 102 5 sessionOnA)) =
        [(Decoder.audioDecoder, [7, 8], 102, 5)] ∧
    portalDeviceDidReceivePacket sampleEnv [7, 8] 106 5 sessionOnA = sessionOnA :=
  ⟨(portalDeviceDidReceivePacket_dispatch sampleEnv [7, 8] 101 5 sessionOnA).1 rfl,
    (portalDeviceDidReceivePacket_dispatch sampleEnv [7, 8] 102 5 sessionOnA).2.1 rfl,
    ((portalDeviceDidReceivePacket_dispatch sampleEnv [7, 8] 106 5 sessionOnA).2.2
      (by decide) (by decide)).1⟩

/-! ### C10 -/

/-- C10: whatever `Input` does on a packet, raising included (`env` decides,
from everything logged so far), `portalDeviceDidReceivePacket` returns a state
in which the portal (active handle), `deviceUUID`, the selected video decoder
and the other fields are as before: only the log grows, and when `Input` raised
the `catch` block ran.  Hence the `Input` calls made for any later packets are
the same with and without that packet: those the type codes prescribe. -/
theorem portalDeviceDidReceivePacket_isolated (env : Env) (p : Inbound)
    (s : IOSCameraInput) :
    (portalDeviceDidReceivePacket env p.packet p.type p.tag s).portal = s.portal ∧
    (portalDeviceDidReceivePacket env p.packet p.type p.tag s).deviceUUID = s.deviceUUID ∧
    (portalDeviceDidReceivePacket env p.packet p.type p.tag s).videoDecoder =
      s.videoDecoder ∧
    (∃ es, portalDeviceDidReceivePacket env p.packet p.type p.tag s =
      { s with log := s.log ++ es }) ∧
    (∀ s1, dispatchPacket env p.packet p.type p.tag s = Except.error s1 →
      portalDeviceDidReceivePacket env p.packet p.type p.tag s =
        emit s1 Event.exceptionCaught) ∧
    (∀ ps : List Inbound,
      inputCalls (newEvents (portalDeviceDidReceivePacket env p.packet p.type p.tag s)
        (receiveAll env ps (portalDeviceDidReceivePacket env p.packet p.type p.tag s))) =
      inputCalls (newEvents s (receiveAll env ps s)) ∧
      inputCalls (newEvents s (receiveAll env ps s)) =
        routedInputsAll s.videoDecoder ps) := by
  obtain ⟨es, h, _, _⟩ := portalDeviceDidReceivePacket_log env p.packet p.type p.tag s
  refine ⟨by rw [h], by rw [h], by rw [h], ⟨es, h⟩, fun s1 hs1 => ?_, fun ps => ?_⟩
  · simp [portalDeviceDidReceivePacket, hs1]
  · rw [inputCalls_receiveAll, inputCalls_receiveAll, h]
    exact ⟨rfl, rfl⟩

/-- C10 at the sample session: a video packet on which `Input` raises (negative
tag) is contained, and the two packets after it are dispatched as usual. -/
theorem portalDeviceDidReceivePacket_isolated_witness :
    dispatchPacket sampleEnv [1] 101 (-1) sessionOnA =
      Except.error (emit sessionOnA
        (Event.input (Decoder.video VideoDecoder.ffmpegVideoDecoder) [1] 101 (-1))) ∧
    portalDeviceDidReceivePacket sampleEnv [1] 101 (-1) sessionOnA =
      emit (emit sessionOnA
        (Event.input (Decoder.video VideoDecoder.ffmpegVideoDecoder) [1] 101 (-1)))
        Event.exceptionCaught ∧
    inputCalls (newEvents (portalDeviceDidReceivePacket sampleEnv [1] 101 (-1) sessionOnA)
      (receiveAll sampleEnv [⟨[2], 101, 2⟩, ⟨[3], 102, 3⟩]
        (portalDeviceDidReceivePacket sampleEnv [1] 101 (-1) sessionOnA))) =
      [(Decoder.video VideoDecoder.ffmpegVideoDecoder, [2], 101, 2),
       (Decoder.audioDecoder, [3], 102, 3)] :=
  ⟨rfl,
    (portalDeviceDidReceivePacket_isolated sampleEnv ⟨[1], 101, -1⟩ sessionOnA).2.2.2.2.1
      _ rfl,
    ((portalDeviceDidReceivePacket_isolated sampleEnv ⟨[1], 101, -1⟩ sessionOnA).2.2.2.2.2
      [⟨[2], 101, 2⟩, ⟨[3], 102, 3⟩]).1.trans (by decide)⟩

/-! ### Outbound frames -/

theorem sendData_connected (w : Wire) (type : Int) (bytes : Packet) (device : Device)
    (s : IOSCameraInput) (hc : device.isConnected = true) :
    sendData w type (some bytes) bytes.length device s =
      emit s (Event.send device
        (w.frameBytes { version := 0, type := type, tag := 0 } ++ bytes)) := by
  have hlen := w.frameBytes_length { version := 0, type := type, tag := 0 }
  cases bytes with
  | nil =>
    simp [sendData, hc, memcpy, ← hlen]
  | cons b bs =>
    simp [sendData, hc, memcpy, ← hlen]

theorem sendData_null (w : Wire) (type : Int) (device : Device)
    (s : IOSCameraInput) (hc : device.isConnected = true) :
    sendData w type none 0 device s =
      emit s (Event.send device (w.frameBytes { version := 0, type := type, tag := 0 })) := by
  have hlen := w.frameBytes_length { version := 0, type := type, tag := 0 }
  simp [sendData, hc, memcpy, ← hlen]

theorem sendData_not_connected (w : Wire) (type : Int) (payload : Option Packet)
    (n : Nat) (device : Device) (s : IOSCameraInput) (hc : device.isConnected = false) :
    sendData w type payload n device s = s := by
  simp [sendData, hc]

theorem newEvents_emit (s : IOSCameraInput) (e : Event) : newEvents s (emit s e) = [e] := by
  simp [newEvents, emit]

/-! ### C11 -/

/-- C11: for every type and every payload `bytes` (of length `n`), `sendData` on
a connected device hands exactly one byte sequence to `device.send`; it has
length `sizeof(PortalFrame) + n`, its first `sizeof(PortalFrame)` bytes are the
header with version 0, that type and tag 0, and the rest is `bytes`, unchanged
and in order.  With a null payload of size 0, or an empty payload, the bytes
sent are exactly the header. -/
theorem sendData_layout (w : Wire) (type : Int) (bytes : Packet) (device : Device)
    (s : IOSCameraInput) (hc : device.isConnected = true) :
    (∃ packet,
      newEvents s (sendData w type (some bytes) bytes.length device s) =
        [Event.send device packet] ∧
      packet.length = w.sizeofPortalFrame + bytes.length ∧
      packet.take w.sizeofPortalFrame =
        w.frameBytes { version := 0, type := type, tag := 0 } ∧
      packet.drop w.sizeofPortalFrame = bytes ∧
      packet = w.frameBytes { version := 0, type := type, tag := 0 } ++ bytes) ∧
    newEvents s (sendData w type none 0 device s) =
      [Event.send device (w.frameBytes { version := 0, type := type, tag := 0 })] ∧
    newEvents s (sendData w type (some []) 0 device s) =
      [Event.send device (w.frameBytes { version := 0, type := type, tag := 0 })] := by
  have hlen := w.frameBytes_length { version := 0, type := type, tag := 0 }
  refine ⟨⟨w.frameBytes { version := 0, type := type, tag := 0 } ++ bytes, ?_, ?_, ?_, ?_,
    rfl⟩, ?_, ?_⟩
  · rw [sendData_connected w type bytes device s hc, newEvents_emit]
  · simp [hlen]
  · rw [← hlen, List.take_left]
  · rw [← hlen, List.drop_left]
  · rw [sendData_null w type device s hc, newEvents_emit]
  · have h := sendData_connected w type [] device s hc
    simp only [List.length_nil, List.append_nil] at h
    rw [h, newEvents_emit]

/-- C11 at the sample session and layout: a frame of type 106 with four
payload bytes, sent to the connected phone `A`. -/
theorem sendData_layout_witness :
    phoneA.isConnected = true ∧
    newEvents sessionOnA (sendData sampleWire 106 (some [1, 2, 3, 4]) 4 phoneA sessionOnA) =
      [Event.send phoneA [0, 0, 0, 0, 106, 0, 0, 0, 0, 0, 0, 0, 1, 2, 3, 4]] ∧
    newEvents sessionOnA (sendData sampleWire 104 none 0 phoneA sessionOnA) =
      [Event.send phoneA [0, 0, 0, 0, 104, 0, 0, 0, 0, 0, 0, 0]] :=
  ⟨rfl, by decide,
    (sendData_layout sampleWire 104 [] phoneA sessionOnA rfl).2.1⟩

/-! ### C12 -/

theorem sends_single (d : Device) (packet : Packet) :
    sends [Event.send d packet] = [(d, packet)] := rfl

/-- C12: with an active handle that reports connected, `prev_filter` sends
exactly one frame, the header of type 104 with no payload, `next_filter` one
header of type 105, `wildcard` one header of type 107, and a changed intensity
one frame of type 106 whose payload is the four bytes of the new value.  With
no active handle, or one that reports not connected, the three buttons return
the state as it was and an intensity update sends nothing; an intensity that
did not change (by the `!=` of `float`) leaves the state as it was. -/
theorem control_frames (w : Wire) (s : IOSCameraInput) :
    (∀ dev, s.portal._device = some dev → dev.isConnected = true →
      sends (newEvents s (prev_filter w s)) =
        [(dev, w.frameBytes { version := 0, type := 104, tag := 0 })] ∧
      sends (newEvents s (next_filter w s)) =
        [(dev, w.frameBytes { version := 0, type := 105, tag := 0 })] ∧
      sends (newEvents s (wildcard w s)) =
        [(dev, w.frameBytes { version := 0, type := 107, tag := 0 })] ∧
      (∀ x, w.floatNe s.intensity x = true →
        ∃ t, UpdateIOSCameraInput w x (some s) = some t ∧
          sends (newEvents s t) =
            [(dev, w.frameBytes { version := 0, type := 106, tag := 0 } ++ w.floatBytes x)] ∧
          (w.floatBytes x).length = 4)) ∧
    ((s.portal._device = none ∨
        ∃ dev, s.portal._device = some dev ∧ dev.isConnected = false) →
      prev_filter w s = s ∧ next_filter w s = s ∧ wildcard w s = s ∧
      (∀ x, ∃ t, UpdateIOSCameraInput w x (some s) = some t ∧ sends (newEvents s t) = [])) ∧
    (∀ x, w.floatNe s.intensity x = false → UpdateIOSCameraInput w x (some s) = some s) := by
  refine ⟨fun dev hdev hc => ⟨?_, ?_, ?_, fun x hx => ?_⟩, fun h => ?_, fun x hx => ?_⟩
  · simp only [prev_filter, hdev, PREV_FILTER_PACKET_TYPE]
    rw [sendData_null w 104 dev s hc, newEvents_emit, sends_single]
  · simp only [next_filter, hdev, NEXT_FILTER_PACKET_TYPE]
    rw [sendData_null w 105 dev s hc, newEvents_emit, sends_single]
  · simp only [wildcard, hdev, WILDCARD_PACKET_TYPE]
    rw [sendData_null w 107 dev s hc, newEvents_emit, sends_single]
  · refine ⟨_, by simp only [UpdateIOSCameraInput, hx, if_true, hdev]; rfl, ?_,
      w.floatBytes_length x⟩
    have h := sendData_connected w 106 (w.floatBytes x) dev { s with intensity := x } hc
    rw [w.floatBytes_length x] at h
    rw [h]
    simp [newEvents, emit, sends]
  · rcases h with hnone | ⟨dev, hdev, hc⟩
    · refine ⟨by simp [prev_filter, hnone], by simp [next_filter, hnone],
        by simp [wildcard, hnone], fun x => ?_⟩
      cases hx : w.floatNe s.intensity x with
      | true =>
        exact ⟨{ s with intensity := x }, by simp [UpdateIOSCameraInput, hx, hnone],
          by simp [newEvents, sends]⟩
      | false =>
        exact ⟨s, by simp [UpdateIOSCameraInput, hx], by simp [newEvents, sends]⟩
    · refine ⟨by simp [prev_filter, hdev, sendData_not_connected, hc],
        by simp [next_filter, hdev, sendData_not_connected, hc],
        by simp [wildcard, hdev, sendData_not_connected, hc], fun x => ?_⟩
      cases hx : w.floatNe s.intensity x with
      | true =>
        exact ⟨{ s with intensity := x },
          by simp [UpdateIOSCameraInput, hx, hdev, sendData_not_connected, hc],
          by simp [newEvents, sends]⟩
      | false =>
        exact ⟨s, by simp [UpdateIOSCameraInput, hx], by simp [newEvents, sends]⟩
  · simp [UpdateIOSCameraInput, hx]

/-- C12 at the sample session (connected to phone `A`) and at the same session
without an active handle. -/
theorem control_frames_witness :
    sessionOnA.portal._device = some phoneA ∧ phoneA.isConnected = true ∧
    sends (newEvents sessionOnA (prev_filter sampleWire sessionOnA)) =
      [(phoneA, [0, 0, 0, 0, 104, 0, 0, 0, 0, 0, 0, 0])] ∧
    ({ sessionOnA with portal := { _device := none, devices := [] } } :
      IOSCameraInput).portal._device = none ∧
    wildcard sampleWire { sessionOnA with portal := { _device := none, devices := [] } } =
      { sessionOnA with portal := { _device := none, devices := [] } } :=
  ⟨rfl, rfl, ((control_frames sampleWire sessionOnA).1 phoneA rfl rfl).1, rfl,
    ((control_frames sampleWire
      { sessionOnA with portal := { _device := none, devices := [] } }).2.1
        (Or.inl rfl)).2.2.1⟩

/-! ### C13 -/

/-- C13: the destructor disconnects the active handle exactly once when one is
present (that disconnect is the only thing it does), and does nothing at all
when none is present. -/
theorem destruct_disconnects_once (s : IOSCameraInput) :
    (∀ dev, s.portal._device = some dev →
      newEvents s (IOSCameraInput.destruct s) = [Event.disconnect dev] ∧
      disconnects (newEvents s (IOSCameraInput.destruct s)) = [dev]) ∧
    (s.portal._device = none →
      IOSCameraInput.destruct s = s ∧
      disconnects (newEvents s (IOSCameraInput.destruct s)) = []) := by
  refine ⟨fun dev hdev => ?_, fun hnone => ?_⟩
  · simp only [IOSCameraInput.destruct, hdev]
    rw [newEvents_emit]
    exact ⟨rfl, rfl⟩
  · have h : IOSCameraInput.destruct s = s := by
      simp only [IOSCameraInput.destruct, hnone]
    rw [h, newEvents_self]
    exact ⟨rfl, rfl⟩

/-- C13 at the sample session, and at the session constructed with an empty
directory, which has no active handle. -/
theorem destruct_disconnects_once_witness :
    sessionOnA.portal._device = some phoneA ∧
    disconnects (newEvents sessionOnA (IOSCameraInput.destruct sessionOnA)) = [phoneA] ∧
    sessionAwaitingA.portal._device = none ∧
    IOSCameraInput.destruct sessionAwaitingA = sessionAwaitingA :=
  ⟨rfl, ((destruct_disconnects_once sessionOnA).1 phoneA rfl).2, by decide,
    ((destruct_disconnects_once sessionAwaitingA).2 (by decide)).1⟩

/-! ### Decoder selection -/

theorem connectToDevice_videoDecoder (env : Env) (uuid : String) (force : Bool)
    (s : IOSCameraInput) :
    (connectToDevice env uuid force s).videoDecoder = s.videoDecoder := by
  cases hdev : s.portal._device with
  | none => rw [connectToDevice_fresh env uuid force s hdev]
  | some dev =>
    cases hg : alreadyConnected dev uuid force with
    | true => rw [connectToDevice_skip env uuid force s dev hdev hg]; rfl
    | false => rw [connectToDevice_switch env uuid force s dev hdev hg]

theorem construct_videoDecoder (env : Env) (settings : String) (devices : DeviceMap) :
    (IOSCameraInput.construct env settings devices).videoDecoder =
      VideoDecoder.ffmpegVideoDecoder := by
  simp only [IOSCameraInput.construct, loadSettings, connectToDevice_videoDecoder]

theorem update_hardware_decoding_videoDecoder (b : Bool) (s : IOSCameraInput) :
    (update_hardware_decoding b s).videoDecoder =
      if b then VideoDecoder.videoToolboxVideoDecoder
      else VideoDecoder.ffmpegVideoDecoder := by
  cases b <;> rfl

/-! ### C14 -/

/-- C14 fails as stated: the session that received one video packet after its
construction has a video packet passed to `Input` with no flush since, and
`update_hardware_decoding(true)` changes the selected video decoder there. -/
theorem selection_changes_with_pending_input :
    ¬ (pendingVideoInput sessionAfterVideoPacket.log = true →
      (update_hardware_decoding true sessionAfterVideoPacket).videoDecoder =
        sessionAfterVideoPacket.videoDecoder) := by
  decide

/-- C14, amended: `update_hardware_decoding` applies the selection at once in
every state, whether or not a video packet was passed to `Input` since the last
flush; it changes nothing but the selection and calls nothing on any decoder
(the log is as before), so earlier `Input` calls stay with the decoder that
received them, and the next video packet goes to the newly selected decoder. -/
theorem update_hardware_decoding_immediate (env : Env) (useHardwareDecoder : Bool)
    (s : IOSCameraInput) :
    (update_hardware_decoding useHardwareDecoder s).videoDecoder =
      (if useHardwareDecoder then VideoDecoder.videoToolboxVideoDecoder
        else VideoDecoder.ffmpegVideoDecoder) ∧
    update_hardware_decoding useHardwareDecoder s =
      { s with videoDecoder := (update_hardware_decoding useHardwareDecoder s).videoDecoder } ∧
    newEvents s (update_hardware_decoding useHardwareDecoder s) = [] ∧
    (∀ packet tag,
      inputCalls (newEvents (update_hardware_decoding useHardwareDecoder s)
        (portalDeviceDidReceivePacket env packet 101 tag
          (update_hardware_decoding useHardwareDecoder s))) =
        [(Decoder.video (if useHardwareDecoder then VideoDecoder.videoToolboxVideoDecoder
            else VideoDecoder.ffmpegVideoDecoder), packet, 101, tag)]) := by
  refine ⟨update_hardware_decoding_videoDecoder _ _, ?_, ?_, fun packet tag => ?_⟩
  · cases useHardwareDecoder <;> rfl
  · cases useHardwareDecoder <;> simp [update_hardware_decoding, newEvents]
  · rw [inputCalls_portalDeviceDidReceivePacket, update_hardware_decoding_videoDecoder]
    simp [routedInputs]

/-! ### C15 -/

/-- C15 fails as stated: where the hardware decoder failed to initialise and
the hardware-decoding setting was then switched on, a video packet is passed to
the hardware decoder, not to the software decoder. -/
theorem failed_hardware_decoder_still_selected :
    ¬ (failedHardwareEnv.initFails (Decoder.video VideoDecoder.videoToolboxVideoDecoder) = true →
      inputCalls (newEvents sessionHardwareSelected
        (portalDeviceDidReceivePacket failedHardwareEnv [1] 101 1 sessionHardwareSelected)) =
        [(Decoder.video VideoDecoder.ffmpegVideoDecoder, [1], 101, 1)]) := by
  decide

theorem sendData_videoDecoder (w : Wire) (type : Int) (payload : Option Packet)
    (n : Nat) (device : Device) (s : IOSCameraInput) :
    (sendData w type payload n device s).videoDecoder = s.videoDecoder := by
  cases hc : device.isConnected <;> simp [sendData, hc, emit]

theorem reconnectToDevice_videoDecoder (env : Env) (s : IOSCameraInput) :
    (reconnectToDevice env s).videoDecoder = s.videoDecoder := by
  unfold reconnectToDevice
  split
  · rfl
  · exact connectToDevice_videoDecoder env _ true s

theorem portalDidUpdateDeviceList_videoDecoder (env : Env) (deviceList : DeviceMap)
    (s : IOSCameraInput) :
    (portalDidUpdateDeviceList env deviceList s).videoDecoder = s.videoDecoder := by
  by_cases hl : deviceList.length = 1
  · obtain ⟨e, rfl⟩ := List.length_eq_one.mp hl
    rw [show [e] = [(e.1, e.2)] from rfl, portalDidUpdateDeviceList_single]
    cases shouldAutoConnect s e.2 with
    | true =>
      exact connectToDevice_videoDecoder env e.2.uuid false
        { s with settingDeviceUUID := e.2.uuid }
    | false => rfl
  · simp [portalDidUpdateDeviceList, hl]

theorem portalDeviceDidReceivePacket_videoDecoder (env : Env) (packet : Packet)
    (type tag : Int) (s : IOSCameraInput) :
    (portalDeviceDidReceivePacket env packet type tag s).videoDecoder = s.videoDecoder := by
  obtain ⟨es, h, _⟩ := portalDeviceDidReceivePacket_log env packet type tag s
  rw [h]

theorem UpdateIOSCameraInput_videoDecoder (w : Wire) (x : Nat) (s t : IOSCameraInput)
    (h : UpdateIOSCameraInput w x (some s) = some t) : t.videoDecoder = s.videoDecoder := by
  simp only [UpdateIOSCameraInput] at h
  split at h
  · split at h
    · cases h
      exact sendData_videoDecoder w 106 _ _ _ _
    · cases h
      rfl
  · cases h
    rfl

theorem apply_videoDecoder (env : Env) (w : Wire) (op : SessionOp) (s : IOSCameraInput) :
    (op.apply env w s).videoDecoder =
      match op with
      | SessionOp.update_hardware_decoding b => selectedVideoDecoder (some b)
      | _ => s.videoDecoder := by
  cases op with
  | connectToDevice uuid force => exact connectToDevice_videoDecoder env uuid force s
  | reconnectToDevice => exact reconnectToDevice_videoDecoder env s
  | portalDidUpdateDeviceList deviceList =>
    exact portalDidUpdateDeviceList_videoDecoder env deviceList s
  | portalDeviceDidReceivePacket packet type tag =>
    exact portalDeviceDidReceivePacket_videoDecoder env packet type tag s
  | update_hardware_decoding b => cases b <;> rfl
  | prev_filter =>
    simp only [SessionOp.apply, prev_filter]
    cases s.portal._device with
    | none => rfl
    | some d => exact sendData_videoDecoder w _ _ _ d s
  | next_filter =>
    simp only [SessionOp.apply, next_filter]
    cases s.portal._device with
    | none => rfl
    | some d => exact sendData_videoDecoder w _ _ _ d s
  | wildcard =>
    simp only [SessionOp.apply, wildcard]
    cases s.portal._device with
    | none => rfl
    | some d => exact sendData_videoDecoder w _ _ _ d s
  | UpdateIOSCameraInput x =>
    simp only [SessionOp.apply]
    cases h : UpdateIOSCameraInput w x (some s) with
    | none => rfl
    | some t => exact UpdateIOSCameraInput_videoDecoder w x s t h
  | refreshDirectory snapshot => rfl
  | observeConnection connected => rfl

theorem runOps_videoDecoder (env : Env) (w : Wire) (ops : List SessionOp)
    (s : IOSCameraInput) :
    (runOps env w ops s).videoDecoder =
      match lastHardwareSetting ops with
      | some b => selectedVideoDecoder (some b)
      | none => s.videoDecoder := by
  induction ops generalizing s with
  | nil => rfl
  | cons op ops ih =>
    have hstep : runOps env w (op :: ops) s = runOps env w ops (op.apply env w s) := rfl
    rw [hstep, ih]
    cases hl : lastHardwareSetting ops with
    | some b => simp [lastHardwareSetting, hl]
    | none =>
      simp only [lastHardwareSetting, hl]
      rw [apply_videoDecoder]
      cases op <;> rfl

/-- C15, amended: `CreateIOSCameraInput` yields a session exactly when no
`Init()` of the constructor raises; that session has the software decoder
selected, whatever hardware-decoding setting is stored and whether or not the
hardware decoder's `Init()` failed.  After any sequence of operations on it,
the selected decoder, to which a video packet is then passed, is the one that
follows from the latest `update_hardware_decoding` call of the sequence: the
software decoder when there was none or it read `false`, the hardware decoder
when it read `true`, failed `Init()` or not. -/
theorem video_dispatch_follows_last_update (env : Env) (w : Wire) (settings : ObsData)
    (devices : DeviceMap) (ops : List SessionOp) :
    (CreateIOSCameraInput env settings devices = none ↔ constructorRaises env = true) ∧
    (∀ s, CreateIOSCameraInput env settings devices = some s →
      s.videoDecoder = VideoDecoder.ffmpegVideoDecoder ∧
      (runOps env w ops s).videoDecoder = selectedVideoDecoder (lastHardwareSetting ops) ∧
      (∀ packet tag,
        inputCalls (newEvents (runOps env w ops s)
          (portalDeviceDidReceivePacket env packet 101 tag (runOps env w ops s))) =
          [(Decoder.video (selectedVideoDecoder (lastHardwareSetting ops)),
            packet, 101, tag)])) := by
  refine ⟨?_, fun s hs => ?_⟩
  · cases h : constructorRaises env <;> simp [CreateIOSCameraInput, h]
  · have hc : s = IOSCameraInput.construct env settings.setting_device_uuid devices := by
      cases h : constructorRaises env with
      | true => simp [CreateIOSCameraInput, h] at hs
      | false =>
        simp only [CreateIOSCameraInput, h, Bool.false_eq_true, if_false,
          Option.some.injEq] at hs
        exact hs.symm
    have h0 : s.videoDecoder = VideoDecoder.ffmpegVideoDecoder := by
      rw [hc]
      exact construct_videoDecoder env _ devices
    have h1 : (runOps env w ops s).videoDecoder =
        selectedVideoDecoder (lastHardwareSetting ops) := by
      rw [runOps_videoDecoder, h0]
      cases lastHardwareSetting ops <;> rfl
    refine ⟨h0, h1, fun packet tag => ?_⟩
    rw [inputCalls_portalDeviceDidReceivePacket, h1]
    simp [routedInputs]

/-- C15 amended, where the hardware decoder failed to initialise and the stored
setting is on: the created session dispatches a video packet to the software
decoder, and to the hardware decoder once `update_hardware_decoding(true)` ran
(here after a device-list update and followed by a reconnect). -/
theorem video_dispatch_follows_last_update_witness :
    CreateIOSCameraInput failedHardwareEnv hardwareSettingOn [] =
      some (IOSCameraInput.construct failedHardwareEnv "" []) ∧
    inputCalls (newEvents (IOSCameraInput.construct failedHardwareEnv "" [])
      (portalDeviceDidReceivePacket failedHardwareEnv [1] 101 1
        (IOSCameraInput.construct failedHardwareEnv "" []))) =
      [(Decoder.video VideoDecoder.ffmpegVideoDecoder, [1], 101, 1)] ∧
    (runOps failedHardwareEnv sampleWire
      [SessionOp.portalDidUpdateDeviceList [(0, phoneB)],
        SessionOp.update_hardware_decoding true, SessionOp.reconnectToDevice]
      (IOSCameraInput.construct failedHardwareEnv "" [])).videoDecoder =
      VideoDecoder.videoToolboxVideoDecoder :=
  ⟨rfl,
    ((video_dispatch_follows_last_update failedHardwareEnv sampleWire hardwareSettingOn []
      []).2 _ rfl).2.2 [1] 1,
    ((video_dispatch_follows_last_update failedHardwareEnv sampleWire hardwareSettingOn []
      [SessionOp.portalDidUpdateDeviceList [(0, phoneB)],
        SessionOp.update_hardware_decoding true, SessionOp.reconnectToDevice]).2 _ rfl).2.1⟩

/-! ### The decode pipeline -/

theorem decodedItems_append (xs ys : List PipelineEvent) :
    decodedItems (xs ++ ys) = decodedItems xs ++ decodedItems ys := by
  simp [decodedItems, List.filterMap_append]

theorem decodedItems_map_decode (l : List PacketItem) :
    decodedItems (l.map PipelineEvent.decode) = l := by
  induction l with
  | nil => rfl
  | cons i l ih => simpa [decodedItems] using ih

theorem workerExited_not_mem_map_decode (l : List PacketItem) :
    PipelineEvent.workerExited ∉ l.map PipelineEvent.decode := by
  simp

theorem run_invariant (ops : List PipelineOp) (p : DecodePipeline)
    (hs : p.state = PipelineState.Running) (hw : p.workerRunning = true)
    (hc : p.mQueue.closed = false) (he : PipelineEvent.workerExited ∉ p.trace) :
    (DecodePipeline.run ops p).state = PipelineState.Running ∧
    (DecodePipeline.run ops p).workerRunning = true ∧
    (DecodePipeline.run ops p).mQueue.closed = false ∧
    PipelineEvent.workerExited ∉ (DecodePipeline.run ops p).trace ∧
    decodedItems (DecodePipeline.run ops p).trace ++ (DecodePipeline.run ops p).mQueue.items =
      decodedItems p.trace ++ p.mQueue.items ++ inputsOf ops := by
  induction ops generalizing p with
  | nil => simp [DecodePipeline.run, inputsOf, hs, hw, hc, he]
  | cons op ops ih =>
    cases op with
    | input packet type tag =>
      have hstep : DecodePipeline.run (PipelineOp.input packet type tag :: ops) p =
          DecodePipeline.run ops (p.Input packet type tag) := rfl
      have hin : p.Input packet type tag =
          { p with mQueue :=
              p.mQueue.enqueue (PacketItem.mk type tag packet) } := by
        simp [DecodePipeline.Input, hs]
      rw [hstep]
      obtain ⟨h1, h2, h3, h4, h5⟩ := ih (p.Input packet type tag)
        (by rw [hin]; exact hs) (by rw [hin]; exact hw)
        (by rw [hin]; simpa [WorkQueue.enqueue] using hc) (by rw [hin]; exact he)
      refine ⟨h1, h2, h3, h4, ?_⟩
      rw [h5, hin]
      simp [WorkQueue.enqueue, inputsOf]
    | work =>
      have hstep : DecodePipeline.run (PipelineOp.work :: ops) p =
          DecodePipeline.run ops p.workerStep := rfl
      rw [hstep]
      cases hq : p.mQueue.items with
      | nil =>
        have hw' : p.workerStep = p := by
          simp [DecodePipeline.workerStep, hw, WorkQueue.dequeue, hq, hc]
        rw [hw']
        obtain ⟨h1, h2, h3, h4, h5⟩ := ih p hs hw hc he
        refine ⟨h1, h2, h3, h4, ?_⟩
        rw [h5, hq]
        simp [inputsOf]
      | cons i rest =>
        have hw' : p.workerStep =
            { p with mQueue := { p.mQueue with items := rest },
                     trace := p.trace ++ [PipelineEvent.decode i] } := by
          simp [DecodePipeline.workerStep, hw, WorkQueue.dequeue, hq]
        obtain ⟨h1, h2, h3, h4, h5⟩ := ih p.workerStep
          (by rw [hw']; exact hs) (by rw [hw']; exact hw) (by rw [hw']; exact hc)
          (by rw [hw']; simpa using he)
        refine ⟨h1, h2, h3, h4, ?_⟩
        rw [h5, hw']
        simp [decodedItems_append, decodedItems, inputsOf]

theorem joinWorker_closed (items : List PacketItem) (p : DecodePipeline)
    (hw : p.workerRunning = true) (hc : p.mQueue.closed = true)
    (hq : p.mQueue.items = items) :
    DecodePipeline.joinWorker (items.length + 1) p =
      { p with mQueue := { items := [], closed := true }, workerRunning := false,
               trace := p.trace ++ items.map PipelineEvent.decode ++
                 [PipelineEvent.workerExited] } := by
  induction items generalizing p with
  | nil =>
    simp [DecodePipeline.joinWorker, DecodePipeline.workerStep, hw, WorkQueue.dequeue, hq, hc]
    cases p with
    | mk st q wr tr =>
      cases q with
      | mk its cl =>
        simp at hq hc
        simp [hq, hc]
  | cons i rest ih =>
    have hw' : p.workerStep =
        { p with mQueue := { p.mQueue with items := rest },
                 trace := p.trace ++ [PipelineEvent.decode i] } := by
      simp [DecodePipeline.workerStep, hw, WorkQueue.dequeue, hq]
    have hj : DecodePipeline.joinWorker ((i :: rest).length + 1) p =
        DecodePipeline.joinWorker (rest.length + 1) p.workerStep := rfl
    rw [hj, ih p.workerStep (by rw [hw']; exact hw) (by rw [hw']; exact hc) (by rw [hw']),
      hw']
    simp

theorem Shutdown_running (p : DecodePipeline) (hs : p.state = PipelineState.Running)
    (hw : p.workerRunning = true) :
    p.Shutdown =
      { state := PipelineState.Stopped, mQueue := { items := [], closed := true },
        workerRunning := false,
        trace := p.trace ++ p.mQueue.items.map PipelineEvent.decode ++
          [PipelineEvent.workerExited, PipelineEvent.strategyShutdown] } := by
  have hj := joinWorker_closed p.mQueue.items
    { p with state := PipelineState.ShuttingDown, mQueue := p.mQueue.close } hw rfl rfl
  simp only [DecodePipeline.Shutdown, hs]
  simp only [WorkQueue.close] at hj ⊢
  rw [hj]
  simp

theorem Shutdown_stopped (p : DecodePipeline) (hs : p.state = PipelineState.Stopped) :
    p.Shutdown = p := by
  simp only [DecodePipeline.Shutdown, hs]

/-! ### C16 -/

/-- C16: on a pipeline that was started by `Init()`, for every interleaving of
`Input` calls and worker turns, `Shutdown()` ends with the worker having exited
and the pipeline Stopped; what was delivered to decode before the worker exited
is exactly the sequence of items passed to `Input`, in call order; and another
`Shutdown()` returns the pipeline as it is. -/
theorem fifo_through_shutdown (ops : List PipelineOp) :
    ∃ pre,
      (DecodePipeline.run ops DecodePipeline.idle.Init).Shutdown.trace =
        pre ++ [PipelineEvent.workerExited, PipelineEvent.strategyShutdown] ∧
      decodedItems pre = inputsOf ops ∧
      PipelineEvent.workerExited ∉ pre ∧
      (DecodePipeline.run ops DecodePipeline.idle.Init).Shutdown.state =
        PipelineState.Stopped ∧
      (DecodePipeline.run ops DecodePipeline.idle.Init).Shutdown.workerRunning = false ∧
      (DecodePipeline.run ops DecodePipeline.idle.Init).Shutdown.Shutdown =
        (DecodePipeline.run ops DecodePipeline.idle.Init).Shutdown := by
  obtain ⟨h1, h2, _, h4, h5⟩ := run_invariant ops DecodePipeline.idle.Init rfl rfl rfl
    (by decide)
  have hsd := Shutdown_running _ h1 h2
  refine ⟨(DecodePipeline.run ops DecodePipeline.idle.Init).trace ++
      (DecodePipeline.run ops DecodePipeline.idle.Init).mQueue.items.map PipelineEvent.decode,
    by rw [hsd], ?_, ?_, by rw [hsd], by rw [hsd], ?_⟩
  · rw [decodedItems_append, decodedItems_map_decode, h5]
    simp [DecodePipeline.idle, DecodePipeline.Init, decodedItems]
  · simp only [List.mem_append, not_or]
    exact ⟨h4, workerExited_not_mem_map_decode _⟩
  · exact Shutdown_stopped _ (by rw [hsd])

/-- C16 on a sample interleaving: tags 1, 2, 3 are passed to `Input`, the worker
taking a turn after the first; all three are decoded, in that order, before the
worker exits. -/
theorem fifo_through_shutdown_witness :
    ∃ pre,
      (DecodePipeline.run
        [PipelineOp.input [] 101 1, PipelineOp.work, PipelineOp.input [] 101 2,
          PipelineOp.input [] 101 3] DecodePipeline.idle.Init).Shutdown.trace =
        pre ++ [PipelineEvent.workerExited, PipelineEvent.strategyShutdown] ∧
      decodedItems pre =
        [PacketItem.mk 101 1 [], PacketItem.mk 101 2 [], PacketItem.mk 101 3 []] :=
  (fifo_through_shutdown
    [PipelineOp.input [] 101 1, PipelineOp.work, PipelineOp.input [] 101 2,
      PipelineOp.input [] 101 3]).imp fun _ h => ⟨h.1, h.2.1⟩

/-! ### Retry after a lookup miss -/

theorem portalDidUpdateDeviceList_of_not_single (env : Env) (deviceList : DeviceMap)
    (s : IOSCameraInput) (h : deviceList.length ≠ 1) :
    portalDidUpdateDeviceList env deviceList s = s := by
  simp [portalDidUpdateDeviceList, h]

theorem portalDidUpdateDeviceList_ignores (env : Env) (deviceList : DeviceMap)
    (s : IOSCameraInput) (hne : s.deviceUUID ≠ "")
    (h : ∀ e ∈ deviceList, e.2.uuid = s.deviceUUID → e.2.isConnected = true) :
    portalDidUpdateDeviceList env deviceList s = s := by
  by_cases hl : deviceList.length = 1
  · obtain ⟨e, rfl⟩ := List.length_eq_one.mp hl
    have hno : shouldAutoConnect s e.2 = false := by
      rw [Bool.eq_false_iff, Ne, shouldAutoConnect_iff, isFirstTimeConnectingToDevice_iff]
      rintro (h0 | ⟨h1, h2⟩)
      · exact hne h0
      · have := h e (by simp) h1
        rw [h2] at this
        exact absurd this (by decide)
    rw [show [e] = [(e.1, e.2)] from rfl, portalDidUpdateDeviceList_single]
    simp [hno]
  · exact portalDidUpdateDeviceList_of_not_single env deviceList s hl

theorem connectToDevice_after_miss (env : Env) (uuid : String) (force : Bool)
    (s : IOSCameraInput) (hg : guardApplies s uuid force = false)
    (hmiss : ∀ e ∈ s.portal.devices, e.2.uuid ≠ uuid) :
    (connectToDevice env uuid force s).deviceUUID = uuid ∧
    (connectToDevice env uuid force s).portal._device = none := by
  obtain ⟨h1, h2⟩ := connectToDevice_state_of_not_guard env uuid force s hg
  refine ⟨h1, ?_⟩
  rw [h2, matching_eq_nil uuid s.portal.devices hmiss]
  rfl

theorem guardApplies_of_no_device (s : IOSCameraInput) (uuid : String) (force : Bool)
    (h : s.portal._device = none) : guardApplies s uuid force = false := by
  simp [guardApplies, h]

/-! ### C17 -/

/-- C17 fails as stated: after `connectToDevice("A", false)` missed, a device
list that holds phone `A`, not connected, next to phone `B` (the directory
holding both) initiates no connect to phone `A`. -/
theorem miss_not_resolved_with_two_devices :
    ¬ (phoneAUnplugged ∈ connectsInitiated
        (newEvents (refreshDirectory [(0, phoneAUnplugged), (1, phoneB)] sessionMissedA)
          (portalDidUpdateDeviceList sampleEnv [(0, phoneAUnplugged), (1, phoneB)]
            (refreshDirectory [(0, phoneAUnplugged), (1, phoneB)] sessionMissedA)))) := by
  decide

/-- C17, amended: after `connectToDevice(uuid, false)` missed (no snapshot entry
had that UUID), a device list of exactly one device, with that UUID and not
connected, makes `portalDidUpdateDeviceList` call `connectToDevice(uuid, false)`
once, which initiates a connect on every entry of that UUID in the directory
snapshot of that moment, so on that device when the snapshot holds it.  Until
then a list of more than one device changes nothing, and for a non-empty UUID
neither does any list without a not-connected device of that UUID. -/
theorem miss_resolved_by_single_device_update (env : Env) (uuid : String)
    (s : IOSCameraInput) (snapshot : DeviceMap) (i : Int) (d : Device)
    (hg : guardApplies s uuid false = false)
    (hmiss : ∀ e ∈ s.portal.devices, e.2.uuid ≠ uuid)
    (hd : d.uuid = uuid) (hnc : d.isConnected = false) :
    connectCalls
      (newEvents (refreshDirectory snapshot (connectToDevice env uuid false s))
        (portalDidUpdateDeviceList env [(i, d)]
          (refreshDirectory snapshot (connectToDevice env uuid false s)))) =
      [(uuid, false)] ∧
    connectsInitiated
      (newEvents (refreshDirectory snapshot (connectToDevice env uuid false s))
        (portalDidUpdateDeviceList env [(i, d)]
          (refreshDirectory snapshot (connectToDevice env uuid false s)))) =
      matching uuid snapshot ∧
    ((i, d) ∈ snapshot →
      d ∈ connectsInitiated
        (newEvents (refreshDirectory snapshot (connectToDevice env uuid false s))
          (portalDidUpdateDeviceList env [(i, d)]
            (refreshDirectory snapshot (connectToDevice env uuid false s))))) ∧
    (∀ deviceList : DeviceMap, 1 < deviceList.length →
      portalDidUpdateDeviceList env deviceList
        (refreshDirectory snapshot (connectToDevice env uuid false s)) =
        refreshDirectory snapshot (connectToDevice env uuid false s)) ∧
    (uuid ≠ "" → ∀ deviceList : DeviceMap,
      (∀ e ∈ deviceList, e.2.uuid = uuid → e.2.isConnected = true) →
      portalDidUpdateDeviceList env deviceList
        (refreshDirectory snapshot (connectToDevice env uuid false s)) =
        refreshDirectory snapshot (connectToDevice env uuid false s)) := by
  obtain ⟨hu, hnone⟩ := connectToDevice_after_miss env uuid false s hg hmiss
  generalize connectToDevice env uuid false s = m at hu hnone ⊢
  have hauto : shouldAutoConnect (refreshDirectory snapshot m) d = true :=
    (shouldAutoConnect_iff _ d).2 (Or.inr ⟨hd.trans hu.symm, hnc⟩)
  have hcalls := connectCalls_portalDidUpdateDeviceList_single env
    (refreshDirectory snapshot m) i d
  rw [hauto] at hcalls
  have hconn : connectsInitiated (newEvents (refreshDirectory snapshot m)
      (portalDidUpdateDeviceList env [(i, d)] (refreshDirectory snapshot m))) =
      matching uuid snapshot := by
    have h := connectsInitiated_connectToDevice env uuid false
      { refreshDirectory snapshot m with settingDeviceUUID := uuid }
      (guardApplies_of_no_device _ uuid false hnone)
    rw [portalDidUpdateDeviceList_single, hauto]
    simp only [if_true]
    rw [hd]
    exact h
  refine ⟨by simpa [hd] using hcalls, hconn, fun hmem => ?_, fun l hl => ?_,
    fun hne l hl => ?_⟩
  · rw [hconn]
    exact (mem_matching uuid snapshot d).2 ⟨⟨i, hmem⟩, hd⟩
  · exact portalDidUpdateDeviceList_of_not_single env l _ (by omega)
  · exact portalDidUpdateDeviceList_ignores env l _ (by simpa [refreshDirectory, hu] using hne)
      (by simpa [refreshDirectory, hu] using hl)

/-- C17 amended, at the sample miss: phone `A`, not connected, alone in the list
and in the directory, gets the connect. -/
theorem miss_resolved_by_single_device_update_witness :
    guardApplies (IOSCameraInput.construct sampleEnv "" []) "A" false = false ∧
    (∀ e ∈ (IOSCameraInput.construct sampleEnv "" []).portal.devices, e.2.uuid ≠ "A") ∧
    phoneAUnplugged.uuid = "A" ∧ phoneAUnplugged.isConnected = false ∧
    ((0 : Int), phoneAUnplugged) ∈ [((0 : Int), phoneAUnplugged)] ∧
    phoneAUnplugged ∈ connectsInitiated
      (newEvents
        (refreshDirectory [(0, phoneAUnplugged)]
          (connectToDevice sampleEnv "A" false (IOSCameraInput.construct sampleEnv "" [])))
        (portalDidUpdateDeviceList sampleEnv [(0, phoneAUnplugged)]
          (refreshDirectory [(0, phoneAUnplugged)]
            (connectToDevice sampleEnv "A" false
              (IOSCameraInput.construct sampleEnv "" []))))) :=
  ⟨by decide, by decide, rfl, rfl, by decide,
    (miss_resolved_by_single_device_update sampleEnv "A"
      (IOSCameraInput.construct sampleEnv "" []) [(0, phoneAUnplugged)] 0 phoneAUnplugged
      (by decide) (by decide) rfl rfl).2.2.1 (by decide)⟩

/-! ### The session invariant -/

theorem foldl_portalConnect_uuid (env : Env) (ht : TransportSetsRequested env)
    (uuid : String) (ds : List Device) (p : Portal)
    (hds : ∀ d ∈ ds, d.uuid = uuid)
    (hp : ∀ dev, p._device = some dev → dev.uuid = uuid) :
    ∀ dev, (ds.foldl env.portalConnectToDevice p)._device = some dev → dev.uuid = uuid := by
  induction ds generalizing p with
  | nil => simpa using hp
  | cons d ds ih =>
    rw [List.foldl_cons]
    apply ih
    · exact fun x hx => hds x (List.mem_cons_of_mem _ hx)
    · intro dev hdev
      rcases ht p d with h | h | h
      · rw [h] at hdev
        cases hdev
        exact hds d (List.mem_cons_self _ _)
      · rw [h] at hdev
        exact hp dev hdev
      · rw [h] at hdev
        cases hdev

theorem matching_uuid (uuid : String) (l : DeviceMap) :
    ∀ d ∈ matching uuid l, d.uuid = uuid :=
  fun d hd => ((mem_matching uuid l d).1 hd).2

theorem connectToDevice_preserves (env : Env) (ht : TransportSetsRequested env)
    (uuid : String) (force : Bool) (s : IOSCameraInput) (h : ActiveMatchesDesired s) :
    ActiveMatchesDesired (connectToDevice env uuid force s) := by
  cases hg : guardApplies s uuid force with
  | true =>
    cases hdev : s.portal._device with
    | none => simp [guardApplies, hdev] at hg
    | some dev =>
      have hg' : alreadyConnected dev uuid force = true := by
        simpa [guardApplies, hdev] using hg
      rw [connectToDevice_skip env uuid force s dev hdev hg']
      exact h
  | false =>
    obtain ⟨h1, h2⟩ := connectToDevice_state_of_not_guard env uuid force s hg
    intro dev hdev
    rw [h1]
    rw [h2] at hdev
    exact foldl_portalConnect_uuid env ht uuid _ _ (matching_uuid uuid _)
      (fun x hx => by cases hx) dev hdev

theorem portalDidUpdateDeviceList_preserves (env : Env) (ht : TransportSetsRequested env)
    (deviceList : DeviceMap) (s : IOSCameraInput) (h : ActiveMatchesDesired s) :
    ActiveMatchesDesired (portalDidUpdateDeviceList env deviceList s) := by
  by_cases hl : deviceList.length = 1
  · obtain ⟨e, rfl⟩ := List.length_eq_one.mp hl
    rw [show [e] = [(e.1, e.2)] from rfl, portalDidUpdateDeviceList_single]
    cases shouldAutoConnect s e.2 with
    | true =>
      exact connectToDevice_preserves env ht e.2.uuid false
        { s with settingDeviceUUID := e.2.uuid } h
    | false => exact h
  · rw [portalDidUpdateDeviceList_of_not_single env deviceList s hl]
    exact h

theorem construct_activeMatchesDesired (env : Env) (ht : TransportSetsRequested env)
    (settings : String) (devices : DeviceMap) :
    ActiveMatchesDesired (IOSCameraInput.construct env settings devices) := by
  have h := connectToDevice_preserves env ht settings false
    { portal := { _device := none, devices := devices }, deviceUUID := "",
      videoDecoder := VideoDecoder.ffmpegVideoDecoder, active := false,
      settingDeviceUUID := settings,
      log := (if env.apple then
          [Event.init (Decoder.video VideoDecoder.videoToolboxVideoDecoder)] else []) ++
        [Event.init (Decoder.video VideoDecoder.ffmpegVideoDecoder),
          Event.init Decoder.audioDecoder],
      intensity := env.indeterminateIntensity }
    (fun dev hdev => by cases hdev)
  cases ha : env.apple <;>
    simpa [IOSCameraInput.construct, loadSettings, emit, ha, ActiveMatchesDesired] using h

theorem reachable_activeMatchesDesired (env : Env) (ht : TransportSetsRequested env)
    (s : IOSCameraInput) (hr : Reachable env s) : ActiveMatchesDesired s := by
  induction hr with
  | construct settings devices => exact construct_activeMatchesDesired env ht settings devices
  | connectToDevice uuid force s _ ih => exact connectToDevice_preserves env ht uuid force s ih
  | reconnectToDevice s _ ih =>
    unfold reconnectToDevice
    split
    · exact ih
    · exact connectToDevice_preserves env ht _ true s ih
  | portalDidUpdateDeviceList deviceList s _ ih =>
    exact portalDidUpdateDeviceList_preserves env ht deviceList s ih
  | portalDeviceDidReceivePacket packet type tag s _ ih =>
    obtain ⟨es, h, _⟩ := portalDeviceDidReceivePacket_log env packet type tag s
    rw [h]
    exact ih
  | refreshDirectory snapshot s _ ih => exact ih
  | observeConnection connected s _ ih =>
    intro d hd
    cases hs : s.portal._device with
    | none => simp [observeConnection, hs] at hd
    | some d0 =>
      simp only [observeConnection, hs, Option.map_some', Option.some.injEq] at hd
      subst hd
      exact ih d0 hs

/-! ### C18 -/

/-- C18: when the transport sets the active handle only to the device it was
asked to connect, every state reachable from the construction of the session
by `connectToDevice`, `reconnectToDevice`, `portalDidUpdateDeviceList` and
`portalDeviceDidReceivePacket` calls (the directory and the connection status
changing freely in between, snapshots with or without distinct UUIDs) has an
active handle only if that handle's UUID is `deviceUUID`. -/
theorem active_handle_matches_deviceUUID (env : Env) (ht : TransportSetsRequested env)
    (s : IOSCameraInput) (hr : Reachable env s) (dev : Device)
    (hdev : s.portal._device = some dev) : dev.uuid = s.deviceUUID :=
  reachable_activeMatchesDesired env ht s hr dev hdev

/-- C18 at a sample run: the session is constructed with an empty stored UUID
and phone `A` in the directory, then asked for `A`; phone `A` is the active
handle and `deviceUUID` is `A`. -/
theorem active_handle_matches_deviceUUID_witness :
    TransportSetsRequested sampleEnv ∧
    Reachable sampleEnv
      (connectToDevice sampleEnv "A" false
        (IOSCameraInput.construct sampleEnv "" [(0, phoneA)])) ∧
    (connectToDevice sampleEnv "A" false
      (IOSCameraInput.construct sampleEnv "" [(0, phoneA)])).portal._device = some phoneA ∧
    phoneA.uuid =
      (connectToDevice sampleEnv "A" false
        (IOSCameraInput.construct sampleEnv "" [(0, phoneA)])).deviceUUID :=
  ⟨fun _ _ => Or.inl rfl,
    Reachable.connectToDevice "A" false _ (Reachable.construct "" [(0, phoneA)]),
    by decide,
    active_handle_matches_deviceUUID sampleEnv (fun _ _ => Or.inl rfl) _
      (Reachable.connectToDevice "A" false _ (Reachable.construct "" [(0, phoneA)]))
      phoneA (by decide)⟩

end Hyperstream
